import Mathlib

/-! Utility resource and billing engine.

A shallow embedding of the accounts of `WaterManagement.h`,
`ElectricityManagement.h`, `InternetManagement.h` and `GasManagement.h`:
their constructors, mutators, setters and bill computations; and of the
buildings of `buildings.h` and the citizens of `Citizens.h`.

Conventions of the embedding:

* a C++ `double` that holds a finite value is a rational number and arithmetic
  on it is exact; the one non-finite value the source names,
  `numeric_limits<double>::infinity()`, is the extra value `Limit.infinity`;
* where the result depends on rounding or on a value that is not a number,
  that is for what the accumulators sum to and for the sign of what the
  accounts and the rate tables store, the constructors, mutators and price
  setters are embedded a second time, in `OnDoubles`, over the type `Double`
  of IEEE 754 binary64 values;
* a thrown exception is the `Except.error` result of the function that throws;
* an `enum class` is an inductive type with one constructor per enumerator and
  one more, `UNRECOGNIZED`, for the values a cast can produce that name no
  enumerator;
* the process-wide `static` members (prices, the water plan store), which the
  headers only declare, are explicit arguments;
* a member function that changes its object returns a `Call`: the object after
  the call and the exception thrown, if any; a constructor returns `Except`;
* console output is not modelled.
-/

namespace Utility

/-! ## Shared scaffolding -/

/-- The two exception classes the source throws. -/
inductive Error
  | invalid_argument
  | runtime_error
  deriving DecidableEq, Repr

/-- A `double` used as a limit or cap: a finite value, or `+infinity`. -/
inductive Limit
  | finite (q : ℚ)
  | infinity
  deriving DecidableEq

/-- Strict order of limits as `<` on doubles decides it: every finite value is
below `+infinity`, and `+infinity` is below nothing. -/
def Limit.lt : Limit → Limit → Prop
  | .finite a, .finite b => a < b
  | .finite _, .infinity => True
  | .infinity, _ => False

instance Limit.decLt : (a b : Limit) → Decidable (Limit.lt a b)
  | .finite a, .finite b => inferInstanceAs (Decidable (a < b))
  | .finite _, .infinity => isTrue trivial
  | .infinity, _ => isFalse (fun h => h)

/-- Weak order of limits, `<=` on doubles. -/
def Limit.le : Limit → Limit → Prop
  | .finite a, .finite b => a ≤ b
  | _, .infinity => True
  | .infinity, .finite _ => False

instance Limit.decLe : (a b : Limit) → Decidable (Limit.le a b)
  | .finite a, .finite b => inferInstanceAs (Decidable (a ≤ b))
  | .finite _, .infinity => isTrue trivial
  | .infinity, .infinity => isTrue trivial
  | .infinity, .finite _ => isFalse (fun h => h)

/-- Modelled from the spec: the `Address` class of `HousingScheme.h`, which is
not among the sources; an immutable value identifying a location. -/
structure Address where
  text : String
  deriving DecidableEq

/-! ## WaterManagement.h -/

/-- The enumerators of `enum class WaterTariffPlan`; `UNRECOGNIZED` stands for
any other value of the underlying integer type, which names no enumerator. -/
inductive WaterTariffPlan
  | NO_SUPPLY
  | RESIDENTIAL_CONSERVATION
  | RESIDENTIAL_STANDARD
  | COMMERCIAL_STANDARD
  | UNRECOGNIZED
  deriving DecidableEq

/-- One tier of a tiered price structure (`struct TariffTier`). -/
structure TariffTier where
  limitCubicMeters : Limit
  pricePerCubicMeter : ℚ
  deriving DecidableEq

/-- All details of one water plan (`struct WaterPlanInfo`). -/
structure WaterPlanInfo where
  displayName : String
  tiers : List TariffTier
  deriving DecidableEq

/-- The static map `planDetailsStore`, declared in the header and defined
elsewhere: a finite map is a partial function on its key type. -/
abbrev PlanDetailsStore := WaterTariffPlan → Option WaterPlanInfo

/-- The data members of `class WaterManagement`. -/
structure WaterManagement where
  address : Address
  consumptionCubicMeters : ℚ
  currentPlan : WaterTariffPlan
  deriving DecidableEq

/-- The local variables of the loop of `WaterManagement::calculateBill`. -/
structure TierLoop where
  totalBill : ℚ
  remainingConsumption : ℚ
  consumptionInPreviousTiers : ℚ
  deriving DecidableEq

namespace WaterManagement

/-- The helper `getCurrentPlanInfo`: the store entry of the current plan, or
`runtime_error` when the store has none. -/
def getCurrentPlanInfo (store : PlanDetailsStore) (self : WaterManagement) :
    Except Error WaterPlanInfo :=
  match store self.currentPlan with
  | none => .error .runtime_error
  | some info => .ok info

/-- Lines 90-94 of the loop body: `min(remaining, limit - previous)`, set to 0
when negative. With an infinite limit the difference is infinite and the
minimum is `remaining`. -/
def consumptionInThisTier (tier : TariffTier)
    (remainingConsumption consumptionInPreviousTiers : ℚ) : ℚ :=
  let viaMin : ℚ :=
    match tier.limitCubicMeters with
    | .finite tierUpperBoundary =>
        min remainingConsumption (tierUpperBoundary - consumptionInPreviousTiers)
    | .infinity => remainingConsumption
  if viaMin < 0 then 0 else viaMin

/-- One pass through the loop body after the `break` test (lines 90-98). -/
def tierStep (tier : TariffTier) (s : TierLoop) : TierLoop :=
  let amount := consumptionInThisTier tier s.remainingConsumption s.consumptionInPreviousTiers
  { totalBill := s.totalBill + amount * tier.pricePerCubicMeter
    remainingConsumption := s.remainingConsumption - amount
    consumptionInPreviousTiers := s.consumptionInPreviousTiers + amount }

/-- The range-for loop over `planInfo.tiers`, with its `break` at
`remainingConsumption <= 0`. -/
def tierLoop : List TariffTier → TierLoop → TierLoop
  | [], s => s
  | tier :: rest, s =>
      if s.remainingConsumption ≤ 0 then s else tierLoop rest (tierStep tier s)

/-- The method `WaterManagement::calculateBill`. -/
def calculateBill (store : PlanDetailsStore) (self : WaterManagement) : Except Error ℚ :=
  if self.currentPlan = .NO_SUPPLY then .ok 0
  else
    match getCurrentPlanInfo store self with
    | .error e => .error e
    | .ok planInfo =>
        .ok (tierLoop planInfo.tiers
          { totalBill := 0
            remainingConsumption := self.consumptionCubicMeters
            consumptionInPreviousTiers := 0 }).totalBill

end WaterManagement

/-! ### The tier schedule as the specification words it -/

/-- The boundaries `b_1, ..., b_n` of a tier list, in order. -/
def boundaries (tiers : List TariffTier) : List Limit :=
  tiers.map (fun t => t.limitCubicMeters)

/-- Boundaries in strictly ascending order: `b_1 < b_2 < ... < b_n`. -/
def StrictlyAscending (tiers : List TariffTier) : Prop :=
  List.Chain' Limit.lt (boundaries tiers)

instance StrictlyAscending.dec (tiers : List TariffTier) : Decidable (StrictlyAscending tiers) :=
  inferInstanceAs (Decidable (List.Chain' Limit.lt (boundaries tiers)))

/-- Every boundary is positive. -/
def PositiveBoundaries (tiers : List TariffTier) : Prop :=
  ∀ t ∈ tiers, Limit.lt (.finite 0) t.limitCubicMeters

instance PositiveBoundaries.dec (tiers : List TariffTier) : Decidable (PositiveBoundaries tiers) :=
  inferInstanceAs (Decidable (∀ t ∈ tiers, Limit.lt (.finite 0) t.limitCubicMeters))

/-- No boundary is negative. -/
def NonnegBoundaries (tiers : List TariffTier) : Prop :=
  ∀ t ∈ tiers, Limit.le (.finite 0) t.limitCubicMeters

instance NonnegBoundaries.dec (tiers : List TariffTier) : Decidable (NonnegBoundaries tiers) :=
  inferInstanceAs (Decidable (∀ t ∈ tiers, Limit.le (.finite 0) t.limitCubicMeters))

/-- Every price is non-negative. -/
def NonnegPrices (tiers : List TariffTier) : Prop :=
  ∀ t ∈ tiers, 0 ≤ t.pricePerCubicMeter

instance NonnegPrices.dec (tiers : List TariffTier) : Decidable (NonnegPrices tiers) :=
  inferInstanceAs (Decidable (∀ t ∈ tiers, 0 ≤ t.pricePerCubicMeter))

/-- The enumerators of `enum class ElectricitySupplyStrategy`; `UNRECOGNIZED`
stands for any other value of the underlying integer type, the case the
source meets in its `default:` and final `else` branches. -/
inductive ElectricitySupplyStrategy
  | GRID_ONLY
  | SOLAR_PRIMARY
  | WIND_PRIMARY
  | GRID_TIED_SOLAR
  | GRID_TIED_WIND
  | UNRECOGNIZED
  deriving DecidableEq

/-- The static members `gridUnitPrice` and `gridFeedInTariff` of
`class ElectricityManagement`, declared in the header and defined elsewhere. -/
structure ElectricityRateTable where
  gridUnitPrice : ℚ
  gridFeedInTariff : ℚ
  deriving DecidableEq

/-- The data members of `class ElectricityManagement`. -/
structure ElectricityManagement where
  address : Address
  totalConsumption : ℚ
  localGeneration : ℚ
  supplyStrategy : ElectricitySupplyStrategy
  deriving DecidableEq

namespace ElectricityManagement

/-- The method `getNetGridEnergy`: positive is energy drawn from the grid,
negative is energy supplied to it. -/
def getNetGridEnergy (self : ElectricityManagement) : Except Error ℚ :=
  if self.supplyStrategy = .GRID_ONLY then
    .ok self.totalConsumption
  else if self.supplyStrategy = .SOLAR_PRIMARY ∨ self.supplyStrategy = .WIND_PRIMARY then
    .ok 0
  else if self.supplyStrategy = .GRID_TIED_SOLAR ∨ self.supplyStrategy = .GRID_TIED_WIND then
    .ok (self.totalConsumption - self.localGeneration)
  else
    .error .invalid_argument

/-- The method `ElectricityManagement::calculateBill`. -/
def calculateBill (rates : ElectricityRateTable) (self : ElectricityManagement) :
    Except Error ℚ :=
  match getNetGridEnergy self with
  | .error e => .error e
  | .ok netEnergy =>
      if netEnergy > 0 then .ok (netEnergy * rates.gridUnitPrice)
      else if netEnergy < 0 then .ok (netEnergy * rates.gridFeedInTariff)
      else .ok 0

end ElectricityManagement

/-! ## InternetManagement.h -/

/-- The enumerators of `enum class InternetPlan`; `UNRECOGNIZED` stands for any
other value of the underlying integer type, the `default:` case of
`getPlanDetails`. -/
inductive InternetPlan
  | NO_SERVICE
  | STANDARD
  | PREMIUM
  | BUSINESS_FIBER
  | UNRECOGNIZED
  deriving DecidableEq

/-- The record `struct PlanDetails`. -/
structure PlanDetails where
  baseCost : ℚ
  dataCapGB : Limit
  overageCostPerGB : ℚ
  speedMbps : Int
  displayName : String
  deriving DecidableEq

/-- The data members of `class InternetManagement`. -/
structure InternetManagement where
  address : Address
  dataUsedGB : ℚ
  currentPlan : InternetPlan
  deriving DecidableEq

/-- A plan catalog: what `getPlanDetails` is to `calculateBill`. -/
abbrev PlanCatalog := InternetPlan → Except Error PlanDetails

namespace InternetManagement

/-- The static helper `getPlanDetails`, the fixed plan catalog. -/
def getPlanDetails : PlanCatalog
  | .NO_SERVICE => .ok ⟨0, .finite 0, 0, 0, "No Service"⟩
  | .STANDARD => .ok ⟨500, .finite 100, 10, 50, "Standard Plan"⟩
  | .PREMIUM => .ok ⟨800, .finite 200, 80, 100, "Premium Plan"⟩
  | .BUSINESS_FIBER => .ok ⟨1500, .infinity, 0, 1000, "Business Fiber Plan"⟩
  | .UNRECOGNIZED => .error .invalid_argument

/-- Lines 75-88 of `calculateBill`, after the plan details are fetched. The
condition `!isinf(cap) && used > cap && overage > 0` is the `finite` branch of
the match with its two comparisons. -/
def billFromDetails (details : PlanDetails) (self : InternetManagement) : ℚ :=
  if self.currentPlan = .NO_SERVICE then 0
  else if self.currentPlan = .BUSINESS_FIBER then details.baseCost
  else
    match details.dataCapGB with
    | .finite cap =>
        if self.dataUsedGB > cap ∧ details.overageCostPerGB > 0 then
          details.baseCost + (self.dataUsedGB - cap) * 10
        else details.baseCost
    | .infinity => details.baseCost

/-- The body of `calculateBill` over an arbitrary catalog in the place of
`getPlanDetails`. -/
def calculateBillWith (catalog : PlanCatalog) (self : InternetManagement) : Except Error ℚ :=
  match catalog self.currentPlan with
  | .error e => .error e
  | .ok details => .ok (billFromDetails details self)

/-- The method `InternetManagement::calculateBill`. -/
def calculateBill (self : InternetManagement) : Except Error ℚ :=
  calculateBillWith getPlanDetails self

end InternetManagement

/-- Two plan records that differ at most in `overageCostPerGB`, positive in
both. -/
def DiffersOnlyInOverage (d d' : PlanDetails) : Prop :=
  d'.baseCost = d.baseCost ∧ d'.dataCapGB = d.dataCapGB ∧ d'.speedMbps = d.speedMbps ∧
    d'.displayName = d.displayName ∧ 0 < d.overageCostPerGB ∧ 0 < d'.overageCostPerGB

/-- Two catalogs that differ only in the `overageCostPerGB` of plan `p`. -/
def CatalogsDifferOnlyInOverage (p : InternetPlan) (catalog catalog' : PlanCatalog) : Prop :=
  (∀ q, q ≠ p → catalog' q = catalog q) ∧
    ∃ d d', catalog p = .ok d ∧ catalog' p = .ok d' ∧ DiffersOnlyInOverage d d'

/-! ## Construction, mutation and the setters -/

/-- The outcome of a call of a member function that may change its object:
the object after the call, and the exception the call threw, if it threw.
A function that throws before its first assignment leaves `after` equal to
the object before the call. -/
structure Call (σ : Type) where
  after : σ
  thrown : Option Error

/-- Calls in sequence as a caller without a handler runs them: the first
exception ends the sequence. -/
def Call.andThen {σ : Type} (c : Call σ) (f : σ → Call σ) : Call σ :=
  match c.thrown with
  | some _ => c
  | none => f c.after

/-- One call of `f` per amount, in order, until one throws. -/
def callEach {σ α : Type} (f : σ → α → Call σ) (self : σ) (amounts : List α) : Call σ :=
  amounts.foldl (fun c a => c.andThen (fun s => f s a)) ⟨self, none⟩

namespace WaterManagement

/-- The constructor `WaterManagement::WaterManagement` (defaults of the
source: plan NO_SUPPLY, initial consumption 0). -/
def construct (store : PlanDetailsStore) (ad : Address) (plan : WaterTariffPlan)
    (initialConsumption : ℚ) : Except Error WaterManagement :=
  if initialConsumption < 0 then .error .invalid_argument
  else
    match store plan with
    | none => .error .invalid_argument
    | some _ =>
        .ok { address := ad, consumptionCubicMeters := initialConsumption, currentPlan := plan }

/-- The method `addConsumption`. -/
def addConsumption (self : WaterManagement) (cubicMeters : ℚ) : Call WaterManagement :=
  if cubicMeters < 0 then ⟨self, some .invalid_argument⟩
  else
    ⟨{ self with consumptionCubicMeters := self.consumptionCubicMeters + cubicMeters }, none⟩

/-- The getter `getAddress`. -/
def getAddress (self : WaterManagement) : Address := self.address

/-- The getter `getConsumptionCubicMeters`. -/
def getConsumptionCubicMeters (self : WaterManagement) : ℚ := self.consumptionCubicMeters

/-- The getter `getCurrentPlanType`. -/
def getCurrentPlanType (self : WaterManagement) : WaterTariffPlan := self.currentPlan

/-- The getter `getPlanDisplayName`, which goes through `getCurrentPlanInfo`. -/
def getPlanDisplayName (store : PlanDetailsStore) (self : WaterManagement) :
    Except Error String :=
  match getCurrentPlanInfo store self with
  | .error e => .error e
  | .ok info => .ok info.displayName

/-- The setter `setCurrentPlan`: the store check, the two assignments, then
the message, which asks `getPlanDisplayName` of the updated object. -/
def setCurrentPlan (store : PlanDetailsStore) (self : WaterManagement)
    (newPlan : WaterTariffPlan) : Call WaterManagement :=
  match store newPlan with
  | none => ⟨self, some .invalid_argument⟩
  | some _ =>
      let updated : WaterManagement :=
        { self with currentPlan := newPlan, consumptionCubicMeters := 0 }
      match getPlanDisplayName store updated with
      | .error e => ⟨updated, some e⟩
      | .ok _ => ⟨updated, none⟩

end WaterManagement

namespace ElectricityManagement

/-- The constructor `ElectricityManagement::ElectricityManagement` (defaults of
the source: initial consumption 0, initial generation 0). -/
def construct (ad : Address) (strategy : ElectricitySupplyStrategy)
    (initialConsumption initialGeneration : ℚ) : Except Error ElectricityManagement :=
  if initialConsumption < 0 ∨ initialGeneration < 0 then .error .invalid_argument
  else
    .ok { address := ad, totalConsumption := initialConsumption,
          localGeneration := initialGeneration, supplyStrategy := strategy }

/-- The method `addUsage`. -/
def addUsage (self : ElectricityManagement) (kWh : ℚ) : Call ElectricityManagement :=
  if kWh < 0 then ⟨self, some .invalid_argument⟩
  else ⟨{ self with totalConsumption := self.totalConsumption + kWh }, none⟩

/-- The method `addLocalGeneration`. -/
def addLocalGeneration (self : ElectricityManagement) (kWh : ℚ) : Call ElectricityManagement :=
  if kWh < 0 then ⟨self, some .invalid_argument⟩
  else ⟨{ self with localGeneration := self.localGeneration + kWh }, none⟩

/-- The getter `getAddress`. -/
def getAddress (self : ElectricityManagement) : Address := self.address

/-- The getter `getTotalConsumption`. -/
def getTotalConsumption (self : ElectricityManagement) : ℚ := self.totalConsumption

/-- The getter `getLocalGeneration`. -/
def getLocalGeneration (self : ElectricityManagement) : ℚ := self.localGeneration

/-- The getter `getSupplyStrategy`. -/
def getSupplyStrategy (self : ElectricityManagement) : ElectricitySupplyStrategy :=
  self.supplyStrategy

/-- The helper `strategyToString`, total through its `default:` branch. -/
def strategyToString (self : ElectricityManagement) : String :=
  match self.supplyStrategy with
  | .GRID_ONLY => "Grid Only"
  | .SOLAR_PRIMARY => "Solar Primary (Self-Gen)"
  | .WIND_PRIMARY => "Wind Primary (Self-Gen)"
  | .GRID_TIED_SOLAR => "Grid-Tied Solar"
  | .GRID_TIED_WIND => "Grid-Tied Wind"
  | .UNRECOGNIZED => "Unknown"

/-- The setter `setSupplyStrategy`: one assignment, then a message built by
`strategyToString`, which does not throw. -/
def setSupplyStrategy (self : ElectricityManagement) (newStrategy : ElectricitySupplyStrategy) :
    Call ElectricityManagement :=
  ⟨{ self with supplyStrategy := newStrategy }, none⟩

end ElectricityManagement

namespace InternetManagement

/-- The constructor `InternetManagement::InternetManagement` (defaults of the
source: plan NO_SERVICE, initial data usage 0). -/
def construct (ad : Address) (plan : InternetPlan) (initialDataUsage : ℚ) :
    Except Error InternetManagement :=
  if initialDataUsage < 0 then .error .invalid_argument
  else .ok { address := ad, dataUsedGB := initialDataUsage, currentPlan := plan }

/-- The method `addDataUsage`. -/
def addDataUsage (self : InternetManagement) (data : ℚ) : Call InternetManagement :=
  if data < 0 then ⟨self, some .invalid_argument⟩
  else ⟨{ self with dataUsedGB := self.dataUsedGB + data }, none⟩

/-- The getter `getAddress`. -/
def getAddress (self : InternetManagement) : Address := self.address

/-- The getter `getDataUsedGB`. -/
def getDataUsedGB (self : InternetManagement) : ℚ := self.dataUsedGB

/-- The getter `getCurrentPlan`. -/
def getCurrentPlan (self : InternetManagement) : InternetPlan := self.currentPlan

/-- The helper `planToString`, which goes through `getPlanDetails`. -/
def planToString (self : InternetManagement) : Except Error String :=
  match getPlanDetails self.currentPlan with
  | .error e => .error e
  | .ok details => .ok details.displayName

/-- The setter `setCurrentPlan`: the two assignments, then the message, which
asks `planToString` of the updated object. -/
def setCurrentPlan (self : InternetManagement) (newPlan : InternetPlan) :
    Call InternetManagement :=
  let updated : InternetManagement := { self with currentPlan := newPlan, dataUsedGB := 0 }
  match planToString updated with
  | .error e => ⟨updated, some e⟩
  | .ok _ => ⟨updated, none⟩

end InternetManagement

/-! ## GasManagement.h -/

/-- The static member `gridUnitPrice` of `class GasManagement`, declared in
the header and defined elsewhere. -/
structure GasRateTable where
  gridUnitPrice : ℚ
  deriving DecidableEq

/-- The data members of `class GasManagement`. -/
structure GasManagement where
  address : Address
  totalConsumption : ℚ
  deriving DecidableEq

namespace GasManagement

/-- The constructor `GasManagement::GasManagement` (default of the source:
initial consumption 0). -/
def construct (ad : Address) (initialConsumption : ℚ) : Except Error GasManagement :=
  if initialConsumption < 0 then .error .invalid_argument
  else .ok { address := ad, totalConsumption := initialConsumption }

/-- The method `GasManagement::addUsage`. -/
def addUsage (self : GasManagement) (m3 : ℚ) : Call GasManagement :=
  if m3 < 0 then ⟨self, some .invalid_argument⟩
  else ⟨{ self with totalConsumption := self.totalConsumption + m3 }, none⟩

/-- The method `GasManagement::calculateBill`. -/
def calculateBill (rates : GasRateTable) (self : GasManagement) : ℚ :=
  if self.totalConsumption ≤ 0 then 0
  else self.totalConsumption * rates.gridUnitPrice

/-- The getter `getAddress`. -/
def getAddress (self : GasManagement) : Address := self.address

/-- The getter `getTotalConsumption`. -/
def getTotalConsumption (self : GasManagement) : ℚ := self.totalConsumption

end GasManagement

/-! ## Sequences of mutator calls -/

/-- One call of a mutator of `class ElectricityManagement`. -/
inductive ElectricityMutation
  | addUsage (kWh : ℚ)
  | addLocalGeneration (kWh : ℚ)
  | setSupplyStrategy (newStrategy : ElectricitySupplyStrategy)

/-- One call of a mutator of `class WaterManagement`. -/
inductive WaterMutation
  | addConsumption (cubicMeters : ℚ)
  | setCurrentPlan (newPlan : WaterTariffPlan)

/-- One call of a mutator of `class InternetManagement`. -/
inductive InternetMutation
  | addDataUsage (data : ℚ)
  | setCurrentPlan (newPlan : InternetPlan)

/-- The call an `ElectricityMutation` names. -/
def ElectricityMutation.call (self : ElectricityManagement) :
    ElectricityMutation → Call ElectricityManagement
  | .addUsage kWh => self.addUsage kWh
  | .addLocalGeneration kWh => self.addLocalGeneration kWh
  | .setSupplyStrategy newStrategy => self.setSupplyStrategy newStrategy

/-- The call a `WaterMutation` names. -/
def WaterMutation.call (store : PlanDetailsStore) (self : WaterManagement) :
    WaterMutation → Call WaterManagement
  | .addConsumption cubicMeters => self.addConsumption cubicMeters
  | .setCurrentPlan newPlan => self.setCurrentPlan store newPlan

/-- The call an `InternetMutation` names. -/
def InternetMutation.call (self : InternetManagement) :
    InternetMutation → Call InternetManagement
  | .addDataUsage data => self.addDataUsage data
  | .setCurrentPlan newPlan => self.setCurrentPlan newPlan

/-- The object after a sequence of calls whose exceptions the caller handles:
each call, rejected or not, is made on the object the previous one left. -/
def afterCalls {σ μ : Type} (call : σ → μ → Call σ) (self : σ) (calls : List μ) : σ :=
  calls.foldl (fun s m => (call s m).after) self

/-! ## Reporting: `supply` and `showStatus` -/

/-- The outcome of a call of a reporting member function: the object after the
call, and either what the call printed, as the values it put on the stream, or
the exception it threw. The reporting functions of the source assign to no
member, so `after` is the object they were called on. -/
structure Report (σ ω : Type) where
  after : σ
  printed : Except Error ω

/-- The status line `ElectricityManagement::supply` prints after its heading. -/
inductive ElectricitySupplyLine
  | potentialShortfall
  | localGenerationMeeting
  | netDrawing (kWh : ℚ)
  | netSupplyingOrBalanced (kWh : ℚ)
  deriving DecidableEq

/-- The values `ElectricityManagement::showStatus` prints: the local generation
unless the strategy is GRID_ONLY, and the prices and the bill unless the
strategy is SOLAR_PRIMARY or WIND_PRIMARY. -/
structure ElectricityStatus where
  strategy : String
  totalConsumption : ℚ
  localGeneration : Option ℚ
  netGridEnergy : ℚ
  direction : String
  billing : Option (ℚ × ℚ × ℚ)
  deriving DecidableEq

namespace ElectricityManagement

/-- The method `ElectricityManagement::supply`. -/
def supply (self : ElectricityManagement) :
    Report ElectricityManagement ElectricitySupplyLine :=
  if self.supplyStrategy = .SOLAR_PRIMARY ∨ self.supplyStrategy = .WIND_PRIMARY then
    if self.totalConsumption > self.localGeneration then ⟨self, .ok .potentialShortfall⟩
    else ⟨self, .ok .localGenerationMeeting⟩
  else
    match getNetGridEnergy self with
    | .error e => ⟨self, .error e⟩
    | .ok netGridEnergy =>
        if netGridEnergy > 0 then ⟨self, .ok (.netDrawing netGridEnergy)⟩
        else ⟨self, .ok (.netSupplyingOrBalanced (-netGridEnergy))⟩

/-- The method `ElectricityManagement::showStatus`. -/
def showStatus (rates : ElectricityRateTable) (self : ElectricityManagement) :
    Report ElectricityManagement ElectricityStatus :=
  match getNetGridEnergy self with
  | .error e => ⟨self, .error e⟩
  | .ok netGridEnergy =>
      let generation : Option ℚ :=
        if self.supplyStrategy ≠ .GRID_ONLY then some self.localGeneration else none
      let direction : String :=
        if netGridEnergy > 0 then "(Draw)" else if netGridEnergy < 0 then "(Export)" else "(Zero)"
      if self.supplyStrategy = .SOLAR_PRIMARY ∨ self.supplyStrategy = .WIND_PRIMARY then
        ⟨self, .ok ⟨strategyToString self, self.totalConsumption, generation, netGridEnergy,
          direction, none⟩⟩
      else
        match calculateBill rates self with
        | .error e => ⟨self, .error e⟩
        | .ok bill =>
            ⟨self, .ok ⟨strategyToString self, self.totalConsumption, generation, netGridEnergy,
              direction, some (rates.gridUnitPrice, rates.gridFeedInTariff, bill)⟩⟩

end ElectricityManagement

/-- The status line `GasManagement::supply` prints after its heading. -/
inductive GasSupplyLine
  | gridConnectionActive
  deriving DecidableEq

/-- The values `GasManagement::showStatus` prints. -/
structure GasStatus where
  totalConsumption : ℚ
  gridUnitPrice : ℚ
  estimatedBill : ℚ
  deriving DecidableEq

namespace GasManagement

/-- The method `GasManagement::supply`. -/
def supply (self : GasManagement) : Report GasManagement GasSupplyLine :=
  ⟨self, .ok .gridConnectionActive⟩

/-- The method `GasManagement::showStatus`. -/
def showStatus (rates : GasRateTable) (self : GasManagement) : Report GasManagement GasStatus :=
  ⟨self, .ok ⟨self.totalConsumption, rates.gridUnitPrice, calculateBill rates self⟩⟩

end GasManagement

/-- The status line `WaterManagement::supply` prints after its heading. -/
inductive WaterSupplyLine
  | noSupplyActive
  | beingSupplied
  deriving DecidableEq

/-- One line of the tier listing of `WaterManagement::showStatus`:
"Up to `upTo` (from `fromLimit`): `price`". -/
structure TierLine where
  upTo : Limit
  fromLimit : Limit
  price : ℚ
  deriving DecidableEq

/-- The values `WaterManagement::showStatus` prints; `supplied` is absent on
NO_SUPPLY and otherwise holds the consumption, the tier listing and the bill. -/
structure WaterStatus where
  planName : String
  supplied : Option (ℚ × List TierLine × ℚ)
  deriving DecidableEq

namespace WaterManagement

/-- The method `WaterManagement::supply`: the heading asks for the display
name of the plan before the status line is chosen. -/
def supply (store : PlanDetailsStore) (self : WaterManagement) :
    Report WaterManagement WaterSupplyLine :=
  match getPlanDisplayName store self with
  | .error e => ⟨self, .error e⟩
  | .ok _ =>
      if self.currentPlan = .NO_SUPPLY then ⟨self, .ok .noSupplyActive⟩
      else ⟨self, .ok .beingSupplied⟩

/-- The tier listing loop of `showStatus`, with its local `cumulativeLimit`. -/
def tierLines : Limit → List TariffTier → List TierLine
  | _, [] => []
  | cumulativeLimit, tier :: rest =>
      ⟨tier.limitCubicMeters, cumulativeLimit, tier.pricePerCubicMeter⟩
        :: tierLines tier.limitCubicMeters rest

/-- The method `WaterManagement::showStatus`. -/
def showStatus (store : PlanDetailsStore) (self : WaterManagement) :
    Report WaterManagement WaterStatus :=
  match getCurrentPlanInfo store self with
  | .error e => ⟨self, .error e⟩
  | .ok planInfo =>
      if self.currentPlan ≠ .NO_SUPPLY then
        match calculateBill store self with
        | .error e => ⟨self, .error e⟩
        | .ok bill =>
            ⟨self, .ok ⟨planInfo.displayName,
              some (self.consumptionCubicMeters, tierLines (.finite 0) planInfo.tiers, bill)⟩⟩
      else ⟨self, .ok ⟨planInfo.displayName, none⟩⟩

end WaterManagement

/-- The status lines `InternetManagement::supply` prints after its heading. -/
inductive InternetSupplyLine
  | noServiceActive
  | complete (speedMbps : Int)
  deriving DecidableEq

/-- The values `InternetManagement::showStatus` prints for an active service;
the overage cost is printed only when it is positive. -/
structure InternetServiceStatus where
  dataUsedGB : ℚ
  speedMbps : Int
  dataCapGB : Limit
  overageCostPerGB : Option ℚ
  estimatedBill : ℚ
  deriving DecidableEq

/-- The values `InternetManagement::showStatus` prints; `service` is absent on
NO_SERVICE. -/
structure InternetStatus where
  planName : String
  service : Option InternetServiceStatus
  deriving DecidableEq

namespace InternetManagement

/-- The method `getCurrentSpeed`. -/
def getCurrentSpeed (self : InternetManagement) : Except Error Int :=
  match getPlanDetails self.currentPlan with
  | .error e => .error e
  | .ok details => .ok details.speedMbps

/-- The method `InternetManagement::supply`: the heading asks `planToString`
before the status line is chosen. -/
def supply (self : InternetManagement) : Report InternetManagement InternetSupplyLine :=
  match planToString self with
  | .error e => ⟨self, .error e⟩
  | .ok _ =>
      if self.currentPlan = .NO_SERVICE then ⟨self, .ok .noServiceActive⟩
      else
        match getCurrentSpeed self with
        | .error e => ⟨self, .error e⟩
        | .ok speed => ⟨self, .ok (.complete speed)⟩

/-- The method `InternetManagement::showStatus`. -/
def showStatus (self : InternetManagement) : Report InternetManagement InternetStatus :=
  match getPlanDetails self.currentPlan with
  | .error e => ⟨self, .error e⟩
  | .ok details =>
      if self.currentPlan ≠ .NO_SERVICE then
        match calculateBill self with
        | .error e => ⟨self, .error e⟩
        | .ok bill =>
            ⟨self, .ok ⟨details.displayName,
              some ⟨self.dataUsedGB, details.speedMbps, details.dataCapGB,
                if details.overageCostPerGB > 0 then some details.overageCostPerGB else none,
                bill⟩⟩⟩
      else ⟨self, .ok ⟨details.displayName, none⟩⟩

end InternetManagement

/-! ## buildings.h

The `int` members are integers; `level` stays far from the bounds of `int`,
and the signed overflow of the other counters, undefined in C++, is outside
the embedding. -/

/-- The data members of the base `class Building`. -/
structure Building where
  name : String
  level : Int
  energyConsumption : ℚ
  pollutionOutput : ℚ
  isGreenCertified : Bool
  deriving DecidableEq

/-- The method `Building::upgrade`. -/
def Building.upgrade (self : Building) : Call Building :=
  if self.level ≥ 5 then ⟨self, some .runtime_error⟩
  else
    ⟨{ self with
        level := self.level + 1
        energyConsumption := self.energyConsumption - 5
        pollutionOutput := self.pollutionOutput - 3 }, none⟩

/-- The data members of `class ResidentialBuilding`. -/
structure ResidentialBuilding extends Building where
  residents : Int
  deriving DecidableEq

/-- The data members of `class CommercialBuilding`. -/
structure CommercialBuilding extends Building where
  income : ℚ
  deriving DecidableEq

/-- The data members of `class GreenBuilding`. -/
structure GreenBuilding extends Building
  deriving DecidableEq

/-- The data members of `class IndustrialBuilding`. -/
structure IndustrialBuilding extends Building where
  unitsProduced : Int
  deriving DecidableEq

/-- The data members of `class RecreationalBuilding`. -/
structure RecreationalBuilding extends Building where
  visitors : Int
  deriving DecidableEq

/-- The data members of `class EducationalBuilding`. -/
structure EducationalBuilding extends Building where
  students : Int
  deriving DecidableEq

namespace ResidentialBuilding

/-- The constructor `ResidentialBuilding(n, r)`. -/
def construct (n : String) (r : Int) : ResidentialBuilding :=
  { name := n, level := 1, isGreenCertified := false
    energyConsumption := 80 + r * 2, pollutionOutput := 30 + r * (1 / 2), residents := r }

/-- The method `ResidentialBuilding::simulateDay`. -/
def simulateDay (self : ResidentialBuilding) : ResidentialBuilding :=
  { self with
    energyConsumption := self.energyConsumption + 2
    pollutionOutput := self.pollutionOutput + 1 / 2 }

/-- The method `ResidentialBuilding::upgrade`: the base upgrade, then the
certificate from level 3. -/
def upgrade (self : ResidentialBuilding) : Call ResidentialBuilding :=
  let base := Building.upgrade self.toBuilding
  match base.thrown with
  | some e => ⟨{ self with toBuilding := base.after }, some e⟩
  | none =>
      ⟨{ self with
          toBuilding :=
            { base.after with
              isGreenCertified :=
                if base.after.level ≥ 3 then true else base.after.isGreenCertified } },
        none⟩

end ResidentialBuilding

namespace CommercialBuilding

/-- The constructor `CommercialBuilding(n)`. -/
def construct (n : String) : CommercialBuilding :=
  { name := n, level := 1, isGreenCertified := false
    energyConsumption := 200, pollutionOutput := 80, income := 1000 }

/-- The method `CommercialBuilding::simulateDay`. -/
def simulateDay (self : CommercialBuilding) : CommercialBuilding :=
  { self with
    income := self.income + 100
    energyConsumption := self.energyConsumption + 10
    pollutionOutput := self.pollutionOutput + 5 }

/-- The method `CommercialBuilding::upgrade`: the base upgrade, 500 more
income, then the certificate from level 4. -/
def upgrade (self : CommercialBuilding) : Call CommercialBuilding :=
  let base := Building.upgrade self.toBuilding
  match base.thrown with
  | some e => ⟨{ self with toBuilding := base.after }, some e⟩
  | none =>
      ⟨{ toBuilding :=
            { base.after with
              isGreenCertified :=
                if base.after.level ≥ 4 then true else base.after.isGreenCertified }
         income := self.income + 500 },
        none⟩

end CommercialBuilding

namespace GreenBuilding

/-- The constructor `GreenBuilding(n)`. -/
def construct (n : String) : GreenBuilding :=
  { name := n, level := 1, isGreenCertified := true
    energyConsumption := 10, pollutionOutput := -20 }

/-- The method `GreenBuilding::simulateDay`. -/
def simulateDay (self : GreenBuilding) : GreenBuilding :=
  { self with pollutionOutput := self.pollutionOutput - 1 }

/-- The method `GreenBuilding::upgrade`: the base upgrade, then 5 less
pollution. -/
def upgrade (self : GreenBuilding) : Call GreenBuilding :=
  let base := Building.upgrade self.toBuilding
  match base.thrown with
  | some e => ⟨{ self with toBuilding := base.after }, some e⟩
  | none =>
      ⟨{ toBuilding := { base.after with pollutionOutput := base.after.pollutionOutput - 5 } },
        none⟩

end GreenBuilding

namespace IndustrialBuilding

/-- The constructor `IndustrialBuilding(n)`. -/
def construct (n : String) : IndustrialBuilding :=
  { name := n, level := 1, isGreenCertified := false
    energyConsumption := 300, pollutionOutput := 150, unitsProduced := 0 }

/-- The method `IndustrialBuilding::simulateDay`. -/
def simulateDay (self : IndustrialBuilding) : IndustrialBuilding :=
  { self with
    unitsProduced := self.unitsProduced + 50
    energyConsumption := self.energyConsumption + 20
    pollutionOutput := self.pollutionOutput + 15 }

/-- The method `IndustrialBuilding::upgrade`: the base upgrade, the
certificate from level 3, then 10 less pollution. -/
def upgrade (self : IndustrialBuilding) : Call IndustrialBuilding :=
  let base := Building.upgrade self.toBuilding
  match base.thrown with
  | some e => ⟨{ self with toBuilding := base.after }, some e⟩
  | none =>
      ⟨{ self with
          toBuilding :=
            { base.after with
              isGreenCertified :=
                if base.after.level ≥ 3 then true else base.after.isGreenCertified
              pollutionOutput := base.after.pollutionOutput - 10 } },
        none⟩

end IndustrialBuilding

namespace RecreationalBuilding

/-- The constructor `RecreationalBuilding(n)`. -/
def construct (n : String) : RecreationalBuilding :=
  { name := n, level := 1, isGreenCertified := true
    energyConsumption := 50, pollutionOutput := -10, visitors := 0 }

/-- The method `RecreationalBuilding::simulateDay`. -/
def simulateDay (self : RecreationalBuilding) : RecreationalBuilding :=
  { self with
    visitors := self.visitors + 100
    pollutionOutput := self.pollutionOutput - 1 }

/-- The inherited `Building::upgrade`, which the class does not override. -/
def upgrade (self : RecreationalBuilding) : Call RecreationalBuilding :=
  let base := Building.upgrade self.toBuilding
  ⟨{ self with toBuilding := base.after }, base.thrown⟩

end RecreationalBuilding

namespace EducationalBuilding

/-- The constructor `EducationalBuilding(n, s)`. -/
def construct (n : String) (s : Int) : EducationalBuilding :=
  { name := n, level := 1, isGreenCertified := false
    energyConsumption := 100, pollutionOutput := 20, students := s }

/-- The method `EducationalBuilding::simulateDay`. -/
def simulateDay (self : EducationalBuilding) : EducationalBuilding :=
  { self with
    students := self.students + 10
    energyConsumption := self.energyConsumption + 5
    pollutionOutput := self.pollutionOutput + 2 }

/-- The method `EducationalBuilding::upgrade`: the base upgrade, 50 more
students, then the certificate from level 2. -/
def upgrade (self : EducationalBuilding) : Call EducationalBuilding :=
  let base := Building.upgrade self.toBuilding
  match base.thrown with
  | some e => ⟨{ self with toBuilding := base.after }, some e⟩
  | none =>
      ⟨{ toBuilding :=
            { base.after with
              isGreenCertified :=
                if base.after.level ≥ 2 then true else base.after.isGreenCertified }
         students := self.students + 50 },
        none⟩

end EducationalBuilding

/-- A building as the rest of the program holds it, behind a `Building*`: an
object of one of the concrete classes. A call of a virtual function is a
match on the class. -/
inductive AnyBuilding
  | residential (b : ResidentialBuilding)
  | commercial (b : CommercialBuilding)
  | green (b : GreenBuilding)
  | industrial (b : IndustrialBuilding)
  | recreational (b : RecreationalBuilding)
  | educational (b : EducationalBuilding)
  deriving DecidableEq

namespace AnyBuilding

/-- The `Building` part of the object, which holds `level`,
`energyConsumption`, `pollutionOutput` and `isGreenCertified`. -/
def base : AnyBuilding → Building
  | .residential b => b.toBuilding
  | .commercial b => b.toBuilding
  | .green b => b.toBuilding
  | .industrial b => b.toBuilding
  | .recreational b => b.toBuilding
  | .educational b => b.toBuilding

/-- The virtual call `upgrade()`. -/
def upgrade : AnyBuilding → Call AnyBuilding
  | .residential b => ⟨.residential b.upgrade.after, b.upgrade.thrown⟩
  | .commercial b => ⟨.commercial b.upgrade.after, b.upgrade.thrown⟩
  | .green b => ⟨.green b.upgrade.after, b.upgrade.thrown⟩
  | .industrial b => ⟨.industrial b.upgrade.after, b.upgrade.thrown⟩
  | .recreational b => ⟨.recreational b.upgrade.after, b.upgrade.thrown⟩
  | .educational b => ⟨.educational b.upgrade.after, b.upgrade.thrown⟩

/-- The virtual call `simulateDay()`. -/
def simulateDay : AnyBuilding → AnyBuilding
  | .residential b => .residential b.simulateDay
  | .commercial b => .commercial b.simulateDay
  | .green b => .green b.simulateDay
  | .industrial b => .industrial b.simulateDay
  | .recreational b => .recreational b.simulateDay
  | .educational b => .educational b.simulateDay

end AnyBuilding

/-- One call of a function of a building that changes the building. -/
inductive BuildingCall
  | upgrade
  | simulateDay
  deriving DecidableEq

/-- The call a `BuildingCall` names. -/
def BuildingCall.call (self : AnyBuilding) : BuildingCall → Call AnyBuilding
  | .upgrade => self.upgrade
  | .simulateDay => ⟨self.simulateDay, none⟩

/-- A building as one of the constructors of the source returns it. -/
def FreshlyConstructed (b : AnyBuilding) : Prop :=
  (∃ n r, b = .residential (ResidentialBuilding.construct n r)) ∨
  (∃ n, b = .commercial (CommercialBuilding.construct n)) ∨
  (∃ n, b = .green (GreenBuilding.construct n)) ∨
  (∃ n, b = .industrial (IndustrialBuilding.construct n)) ∨
  (∃ n, b = .recreational (RecreationalBuilding.construct n)) ∨
  (∃ n s, b = .educational (EducationalBuilding.construct n s))

/-! ## Citizens.h -/

/-- The data members of `class Citizen`, without the two pointers `building`
and `transport`. -/
structure Citizen where
  name : String
  age : Int
  ecoAwareness : ℚ
  occupation : String
  dailyTravelDistance : ℚ
  ecoFriendlyDays : Int
  hasGreenBadge : Bool
  totalDistanceTraveled : ℚ
  deriving DecidableEq

/-- The method `Citizen::talkTo`, a `const` function on the speaker that takes
the listener by reference: the result is the speaker and the listener after
the call. -/
def Citizen.talkTo (self other : Citizen) : Citizen × Citizen :=
  if self.ecoAwareness > other.ecoAwareness then
    let influenceAmount : ℚ := (self.ecoAwareness - other.ecoAwareness) * (1 / 10)
    let raised : ℚ := other.ecoAwareness + influenceAmount
    (self, { other with ecoAwareness := if raised > 1 then 1 else raised })
  else (self, other)

/-! ## Calls that name a tag of the enumeration -/

/-- The call passes no strategy outside the enumeration. -/
def ElectricityMutation.Recognized : ElectricityMutation → Prop
  | .setSupplyStrategy newStrategy => newStrategy ≠ .UNRECOGNIZED
  | _ => True

/-- The call passes no plan outside the enumeration. -/
def InternetMutation.Recognized : InternetMutation → Prop
  | .setCurrentPlan newPlan => newPlan ≠ .UNRECOGNIZED
  | _ => True

/-! ## The type `double`

The guards `x < 0` and the accumulating `+=` decide what a value that is not a
number does to an account and how far a sum is from the exact one. For them
the accounts are embedded once more, in the namespace `OnDoubles`, with
`double` as IEEE 754 binary64: finite values, the two infinities and NaN, with
every sum rounded to the nearest value, ties to even. The two zeros are one
value; they compare equal and no function of the accounts tells them apart. -/

/-- A value of type `double`. A finite value is carried as the rational number
it denotes; the finite values a program can hold are those `Double.round`
leaves as they are. -/
inductive Double
  | finite (q : ℚ)
  | posInf
  | negInf
  | nan
  deriving DecidableEq

namespace Double

/-- The comparison `a < b` of two doubles: false when either is NaN. -/
def lt : Double → Double → Prop
  | .finite a, .finite b => a < b
  | .finite _, .posInf => True
  | .negInf, .finite _ => True
  | .negInf, .posInf => True
  | _, _ => False

instance decLt : (a b : Double) → Decidable (lt a b)
  | .finite a, .finite b => inferInstanceAs (Decidable (a < b))
  | .finite _, .posInf => isTrue trivial
  | .negInf, .finite _ => isTrue trivial
  | .negInf, .posInf => isTrue trivial
  | .finite _, .negInf => isFalse (fun h => h)
  | .finite _, .nan => isFalse (fun h => h)
  | .posInf, _ => isFalse (fun h => by cases h)
  | .negInf, .negInf => isFalse (fun h => h)
  | .negInf, .nan => isFalse (fun h => h)
  | .nan, _ => isFalse (fun h => by cases h)

/-- The comparison `a <= b` of two doubles: false when either is NaN. -/
def le : Double → Double → Prop
  | .finite a, .finite b => a ≤ b
  | .finite _, .posInf => True
  | .posInf, .posInf => True
  | .negInf, .finite _ => True
  | .negInf, .posInf => True
  | .negInf, .negInf => True
  | _, _ => False

instance decLe : (a b : Double) → Decidable (le a b)
  | .finite a, .finite b => inferInstanceAs (Decidable (a ≤ b))
  | .finite _, .posInf => isTrue trivial
  | .posInf, .posInf => isTrue trivial
  | .negInf, .finite _ => isTrue trivial
  | .negInf, .posInf => isTrue trivial
  | .negInf, .negInf => isTrue trivial
  | .finite _, .negInf => isFalse (fun h => h)
  | .finite _, .nan => isFalse (fun h => h)
  | .posInf, .finite _ => isFalse (fun h => h)
  | .posInf, .negInf => isFalse (fun h => h)
  | .posInf, .nan => isFalse (fun h => h)
  | .negInf, .nan => isFalse (fun h => h)
  | .nan, _ => isFalse (fun h => by cases h)

/-- The literal `0.0`. -/
def zero : Double := .finite 0

/-- The exponent of the binade of `x`, not below the least normal exponent
-1022, under which the values are subnormal. -/
def exponent (x : ℚ) : ℤ := max (Int.log 2 |x|) (-1022)

/-- The distance between neighbouring doubles around `x`: 53 significant bits. -/
def ulp (x : ℚ) : ℚ := (2 : ℚ) ^ (exponent x - 52)

/-- The nearest integer, a tie going to the even one. -/
def roundHalfEven (m : ℚ) : ℤ :=
  if m - ⌊m⌋ < 1 / 2 then ⌊m⌋
  else if 1 / 2 < m - ⌊m⌋ then ⌊m⌋ + 1
  else if ⌊m⌋ % 2 = 0 then ⌊m⌋ else ⌊m⌋ + 1

/-- Rounding of an exact result to the nearest double, ties to even; a result
that rounds to `2 ^ 1024` or beyond in magnitude is an infinity. -/
def round (x : ℚ) : Double :=
  let r : ℚ := roundHalfEven (x / ulp x) * ulp x
  if (2 : ℚ) ^ (1024 : ℤ) ≤ r then .posInf
  else if r ≤ -(2 : ℚ) ^ (1024 : ℤ) then .negInf
  else .finite r

/-- The sum `a + b` of two doubles. -/
def add : Double → Double → Double
  | .finite a, .finite b => round (a + b)
  | .nan, _ => .nan
  | _, .nan => .nan
  | .posInf, .negInf => .nan
  | .negInf, .posInf => .nan
  | .posInf, _ => .posInf
  | _, .posInf => .posInf
  | .negInf, _ => .negInf
  | _, .negInf => .negInf

/-- The value is one a program can hold: an infinity, NaN, or a finite value
that rounding leaves as it is. -/
def IsDouble : Double → Prop
  | .finite q => round q = .finite q
  | _ => True

/-- The value that the statements `total += a`, one for each `a` of `amounts`
in order, leave in `total` when it starts at `c0`: each addition is rounded. -/
def sumFrom (c0 : Double) (amounts : List Double) : Double :=
  amounts.foldl add c0

end Double

/-- Every partial sum `c0 + a_1 + ... + a_k` of the sequence is a double, so
that no addition of the accumulation rounds. -/
def ExactPartialSums : ℚ → List ℚ → Prop
  | _, [] => True
  | c0, a :: rest => Double.round (c0 + a) = .finite (c0 + a) ∧ ExactPartialSums (c0 + a) rest

/-! ## The accounts on doubles: construction, mutation, the setters -/

namespace OnDoubles

/-- The data members of `class ElectricityManagement`. -/
structure ElectricityManagement where
  address : Address
  totalConsumption : Double
  localGeneration : Double
  supplyStrategy : ElectricitySupplyStrategy
  deriving DecidableEq

/-- The static members `gridUnitPrice` and `gridFeedInTariff` of
`class ElectricityManagement`. -/
structure ElectricityRateTable where
  gridUnitPrice : Double
  gridFeedInTariff : Double
  deriving DecidableEq

/-- The data members of `class GasManagement`. -/
structure GasManagement where
  address : Address
  totalConsumption : Double
  deriving DecidableEq

/-- The static member `gridUnitPrice` of `class GasManagement`. -/
structure GasRateTable where
  gridUnitPrice : Double
  deriving DecidableEq

/-- The data members of `class WaterManagement`. -/
structure WaterManagement where
  address : Address
  consumptionCubicMeters : Double
  currentPlan : WaterTariffPlan
  deriving DecidableEq

/-- The data members of `class InternetManagement`. -/
structure InternetManagement where
  address : Address
  dataUsedGB : Double
  currentPlan : InternetPlan
  deriving DecidableEq

namespace ElectricityManagement

/-- The constructor `ElectricityManagement::ElectricityManagement`. -/
def construct (ad : Address) (strategy : ElectricitySupplyStrategy)
    (initialConsumption initialGeneration : Double) : Except Error ElectricityManagement :=
  if Double.lt initialConsumption Double.zero ∨ Double.lt initialGeneration Double.zero then
    .error .invalid_argument
  else
    .ok { address := ad, totalConsumption := initialConsumption,
          localGeneration := initialGeneration, supplyStrategy := strategy }

/-- The method `addUsage`. -/
def addUsage (self : ElectricityManagement) (kWh : Double) : Call ElectricityManagement :=
  if Double.lt kWh Double.zero then ⟨self, some .invalid_argument⟩
  else ⟨{ self with totalConsumption := Double.add self.totalConsumption kWh }, none⟩

/-- The method `addLocalGeneration`. -/
def addLocalGeneration (self : ElectricityManagement) (kWh : Double) :
    Call ElectricityManagement :=
  if Double.lt kWh Double.zero then ⟨self, some .invalid_argument⟩
  else ⟨{ self with localGeneration := Double.add self.localGeneration kWh }, none⟩

/-- The getter `getTotalConsumption`. -/
def getTotalConsumption (self : ElectricityManagement) : Double := self.totalConsumption

/-- The getter `getLocalGeneration`. -/
def getLocalGeneration (self : ElectricityManagement) : Double := self.localGeneration

/-- The setter `setSupplyStrategy`: one assignment, then a message built by
`strategyToString`, which does not throw. -/
def setSupplyStrategy (self : ElectricityManagement) (newStrategy : ElectricitySupplyStrategy) :
    Call ElectricityManagement :=
  ⟨{ self with supplyStrategy := newStrategy }, none⟩

/-- The static setter `SetGridUnitPrice`, on the static members it writes. -/
def SetGridUnitPrice (rates : ElectricityRateTable) (newPrice : Double) :
    Call ElectricityRateTable :=
  if Double.lt newPrice Double.zero then ⟨rates, some .invalid_argument⟩
  else ⟨{ rates with gridUnitPrice := newPrice }, none⟩

/-- The static setter `SetGridFeedInTariff`, on the static members it writes. -/
def SetGridFeedInTariff (rates : ElectricityRateTable) (newTariff : Double) :
    Call ElectricityRateTable :=
  if Double.lt newTariff Double.zero then ⟨rates, some .invalid_argument⟩
  else ⟨{ rates with gridFeedInTariff := newTariff }, none⟩

end ElectricityManagement

namespace GasManagement

/-- The constructor `GasManagement::GasManagement`. -/
def construct (ad : Address) (initialConsumption : Double) : Except Error GasManagement :=
  if Double.lt initialConsumption Double.zero then .error .invalid_argument
  else .ok { address := ad, totalConsumption := initialConsumption }

/-- The method `GasManagement::addUsage`. -/
def addUsage (self : GasManagement) (m3 : Double) : Call GasManagement :=
  if Double.lt m3 Double.zero then ⟨self, some .invalid_argument⟩
  else ⟨{ self with totalConsumption := Double.add self.totalConsumption m3 }, none⟩

/-- The getter `getTotalConsumption`. -/
def getTotalConsumption (self : GasManagement) : Double := self.totalConsumption

/-- The static setter `SetGridUnitPrice`, on the static member it writes. -/
def SetGridUnitPrice (rates : GasRateTable) (newPrice : Double) : Call GasRateTable :=
  if Double.lt newPrice Double.zero then ⟨rates, some .invalid_argument⟩
  else ⟨{ rates with gridUnitPrice := newPrice }, none⟩

end GasManagement

namespace WaterManagement

/-- The constructor `WaterManagement::WaterManagement`. -/
def construct (store : PlanDetailsStore) (ad : Address) (plan : WaterTariffPlan)
    (initialConsumption : Double) : Except Error WaterManagement :=
  if Double.lt initialConsumption Double.zero then .error .invalid_argument
  else
    match store plan with
    | none => .error .invalid_argument
    | some _ =>
        .ok { address := ad, consumptionCubicMeters := initialConsumption, currentPlan := plan }

/-- The method `addConsumption`. -/
def addConsumption (self : WaterManagement) (cubicMeters : Double) : Call WaterManagement :=
  if Double.lt cubicMeters Double.zero then ⟨self, some .invalid_argument⟩
  else
    ⟨{ self with consumptionCubicMeters := Double.add self.consumptionCubicMeters cubicMeters },
      none⟩

/-- The getter `getConsumptionCubicMeters`. -/
def getConsumptionCubicMeters (self : WaterManagement) : Double := self.consumptionCubicMeters

/-- The getter `getPlanDisplayName`, through the helper `getCurrentPlanInfo`:
`runtime_error` when the store has no entry for the current plan. -/
def getPlanDisplayName (store : PlanDetailsStore) (self : WaterManagement) :
    Except Error String :=
  match store self.currentPlan with
  | none => .error .runtime_error
  | some info => .ok info.displayName

/-- The setter `setCurrentPlan`: the store check, the two assignments, then
the message, which asks `getPlanDisplayName` of the updated object. -/
def setCurrentPlan (store : PlanDetailsStore) (self : WaterManagement)
    (newPlan : WaterTariffPlan) : Call WaterManagement :=
  match store newPlan with
  | none => ⟨self, some .invalid_argument⟩
  | some _ =>
      let updated : WaterManagement :=
        { self with currentPlan := newPlan, consumptionCubicMeters := Double.zero }
      match getPlanDisplayName store updated with
      | .error e => ⟨updated, some e⟩
      | .ok _ => ⟨updated, none⟩

end WaterManagement

namespace InternetManagement

/-- The constructor `InternetManagement::InternetManagement`. -/
def construct (ad : Address) (plan : InternetPlan) (initialDataUsage : Double) :
    Except Error InternetManagement :=
  if Double.lt initialDataUsage Double.zero then .error .invalid_argument
  else .ok { address := ad, dataUsedGB := initialDataUsage, currentPlan := plan }

/-- The method `addDataUsage`. -/
def addDataUsage (self : InternetManagement) (data : Double) : Call InternetManagement :=
  if Double.lt data Double.zero then ⟨self, some .invalid_argument⟩
  else ⟨{ self with dataUsedGB := Double.add self.dataUsedGB data }, none⟩

/-- The getter `getDataUsedGB`. -/
def getDataUsedGB (self : InternetManagement) : Double := self.dataUsedGB

/-- The helper `planToString`, through `getPlanDetails`. -/
def planToString (self : InternetManagement) : Except Error String :=
  match Utility.InternetManagement.getPlanDetails self.currentPlan with
  | .error e => .error e
  | .ok details => .ok details.displayName

/-- The setter `setCurrentPlan`: the two assignments, then the message, which
asks `planToString` of the updated object. -/
def setCurrentPlan (self : InternetManagement) (newPlan : InternetPlan) :
    Call InternetManagement :=
  let updated : InternetManagement :=
    { self with currentPlan := newPlan, dataUsedGB := Double.zero }
  match planToString updated with
  | .error e => ⟨updated, some e⟩
  | .ok _ => ⟨updated, none⟩

end InternetManagement

/-- One call of a mutator of `class ElectricityManagement`. -/
inductive ElectricityMutation
  | addUsage (kWh : Double)
  | addLocalGeneration (kWh : Double)
  | setSupplyStrategy (newStrategy : ElectricitySupplyStrategy)

/-- One call of a mutator of `class WaterManagement`. -/
inductive WaterMutation
  | addConsumption (cubicMeters : Double)
  | setCurrentPlan (newPlan : WaterTariffPlan)

/-- One call of a mutator of `class InternetManagement`. -/
inductive InternetMutation
  | addDataUsage (data : Double)
  | setCurrentPlan (newPlan : InternetPlan)

/-- The call an `ElectricityMutation` names. -/
def ElectricityMutation.call (self : ElectricityManagement) :
    ElectricityMutation → Call ElectricityManagement
  | .addUsage kWh => self.addUsage kWh
  | .addLocalGeneration kWh => self.addLocalGeneration kWh
  | .setSupplyStrategy newStrategy => self.setSupplyStrategy newStrategy

/-- The call a `WaterMutation` names. -/
def WaterMutation.call (store : PlanDetailsStore) (self : WaterManagement) :
    WaterMutation → Call WaterManagement
  | .addConsumption cubicMeters => self.addConsumption cubicMeters
  | .setCurrentPlan newPlan => self.setCurrentPlan store newPlan

/-- The call an `InternetMutation` names. -/
def InternetMutation.call (self : InternetManagement) :
    InternetMutation → Call InternetManagement
  | .addDataUsage data => self.addDataUsage data
  | .setCurrentPlan newPlan => self.setCurrentPlan newPlan

/-- The call passes no NaN. -/
def ElectricityMutation.NoNaN : ElectricityMutation → Prop
  | .addUsage kWh => kWh ≠ .nan
  | .addLocalGeneration kWh => kWh ≠ .nan
  | .setSupplyStrategy _ => True

/-- The call passes no NaN. -/
def WaterMutation.NoNaN : WaterMutation → Prop
  | .addConsumption cubicMeters => cubicMeters ≠ .nan
  | .setCurrentPlan _ => True

/-- The call passes no NaN. -/
def InternetMutation.NoNaN : InternetMutation → Prop
  | .addDataUsage data => data ≠ .nan
  | .setCurrentPlan _ => True

end OnDoubles

/-! ## Example data -/

/-- An address for the worked examples. -/
def exampleAddress : Address := ⟨"12 Canal Road"⟩

/-- The tier list of the worked example: `[{10, 2.0}, {20, 3.0}, {inf, 5.0}]`. -/
def exampleTiers : List TariffTier :=
  [⟨.finite 10, 2⟩, ⟨.finite 20, 3⟩, ⟨.infinity, 5⟩]

/-- A plan store that gives every plan the same tier list. -/
def storeOf (tiers : List TariffTier) : PlanDetailsStore :=
  fun _ => some ⟨"Example plan", tiers⟩

/-- A plan store with entries for NO_SUPPLY and RESIDENTIAL_STANDARD only. -/
def residentialStore : PlanDetailsStore
  | .NO_SUPPLY => some ⟨"No Supply", []⟩
  | .RESIDENTIAL_STANDARD => some ⟨"Residential Standard", exampleTiers⟩
  | _ => none

/-- The catalog of `getPlanDetails` with the `overageCostPerGB` of PREMIUM set
to `rate` and nothing else changed. -/
def catalogWithPremiumOverage (rate : ℚ) : PlanCatalog
  | .PREMIUM => .ok ⟨800, .finite 200, rate, 100, "Premium Plan"⟩
  | plan => InternetManagement.getPlanDetails plan

/-- A commercial building at level 5. -/
def toppedOutBuilding : AnyBuilding :=
  .commercial { name := "Arcade", level := 5, energyConsumption := 180, pollutionOutput := 68,
                isGreenCertified := true, income := 3000 }

/-- A citizen with eco-awareness `e`, as `Citizen(n, a, e)` constructs one. -/
def citizenWith (e : ℚ) : Citizen :=
  { name := "Citizen", age := 30, ecoAwareness := e, occupation := "Unemployed",
    dailyTravelDistance := 10, ecoFriendlyDays := 0, hasGreenBadge := false,
    totalDistanceTraveled := 0 }

/-! ## Proofs -/

/-! ### The tier loop in closed form -/

namespace WaterManagement

end WaterManagement

/-! ### Ascending tier lists -/

/-- C7. On a plan other than NO_SUPPLY whose tiers are
`[{10, 2.0}, {20, 3.0}, {inf, 5.0}]`, at consumption 15, `calculateBill`
returns `10 * 2.0 + 5 * 3.0 = 35.0`: the first pass of the loop places 10
units, the second places 5, and the loop leaves before the third tier. -/
theorem water_calculateBill_worked_example
    (store : PlanDetailsStore) (self : WaterManagement) (info : WaterPlanInfo)
    (hplan : self.currentPlan ≠ .NO_SUPPLY) (hstore : store self.currentPlan = some info)
    (htiers : info.tiers = exampleTiers) (hc : self.consumptionCubicMeters = 15) :
    WaterManagement.calculateBill store self = .ok 35 ∧
      (35 : ℚ) = 10 * 2 + 5 * 3 ∧
      WaterManagement.consumptionInThisTier ⟨.finite 10, 2⟩ 15 0 = 10 ∧
      WaterManagement.tierStep ⟨.finite 10, 2⟩ ⟨0, 15, 0⟩ = ⟨20, 5, 10⟩ ∧
      WaterManagement.consumptionInThisTier ⟨.finite 20, 3⟩ 5 10 = 5 ∧
      WaterManagement.tierStep ⟨.finite 20, 3⟩ ⟨20, 5, 10⟩ = ⟨35, 0, 15⟩ ∧
      WaterManagement.tierLoop [⟨.infinity, 5⟩] ⟨35, 0, 15⟩ = ⟨35, 0, 15⟩ := by
  refine ⟨?_, by norm_num, ?_, ?_, ?_, ?_, ?_⟩
  · norm_num [WaterManagement.calculateBill, hplan, WaterManagement.getCurrentPlanInfo, hstore,
      htiers, hc, exampleTiers, WaterManagement.tierLoop, WaterManagement.tierStep,
      WaterManagement.consumptionInThisTier]
  · norm_num [WaterManagement.consumptionInThisTier]
  · norm_num [WaterManagement.tierStep, WaterManagement.consumptionInThisTier]
  · norm_num [WaterManagement.consumptionInThisTier]
  · norm_num [WaterManagement.tierStep, WaterManagement.consumptionInThisTier]
  · norm_num [WaterManagement.tierLoop]

/-- Witness of C7: an account on RESIDENTIAL_STANDARD with the example tiers. -/
theorem water_calculateBill_worked_example_witness :
    WaterManagement.calculateBill (storeOf exampleTiers)
        ⟨exampleAddress, 15, .RESIDENTIAL_STANDARD⟩ = .ok 35 :=
  (water_calculateBill_worked_example (storeOf exampleTiers)
    ⟨exampleAddress, 15, .RESIDENTIAL_STANDARD⟩ ⟨"Example plan", exampleTiers⟩
    (by decide) rfl rfl rfl).1

/-- C4. `getNetGridEnergy` returns, for every consumption and generation:
the total consumption under GRID_ONLY, 0 under SOLAR_PRIMARY and WIND_PRIMARY,
and consumption minus generation under GRID_TIED_SOLAR and GRID_TIED_WIND. -/
theorem electricity_getNetGridEnergy_by_strategy (addr : Address) (consumption generation : ℚ) :
    ElectricityManagement.getNetGridEnergy ⟨addr, consumption, generation, .GRID_ONLY⟩
        = .ok consumption ∧
      ElectricityManagement.getNetGridEnergy ⟨addr, consumption, generation, .SOLAR_PRIMARY⟩
        = .ok 0 ∧
      ElectricityManagement.getNetGridEnergy ⟨addr, consumption, generation, .WIND_PRIMARY⟩
        = .ok 0 ∧
      ElectricityManagement.getNetGridEnergy ⟨addr, consumption, generation, .GRID_TIED_SOLAR⟩
        = .ok (consumption - generation) ∧
      ElectricityManagement.getNetGridEnergy ⟨addr, consumption, generation, .GRID_TIED_WIND⟩
        = .ok (consumption - generation) := by
  simp [ElectricityManagement.getNetGridEnergy]

/-- C5. For every usage (non-negative or not), `calculateBill` returns 0 on
NO_SERVICE and the flat base cost 1500 on BUSINESS_FIBER; on any other plan
with a catalog entry of base cost `base` and finite cap `cap` it returns
`base + (usage - cap) * 10` when usage exceeds the cap and the overage rate of
the plan is positive, and `base` alone otherwise. So STANDARD is billed
`500 + (usage - 100) * 10` above 100 and 500 up to it, PREMIUM
`800 + (usage - 200) * 10` above 200 and 800 up to it, and STANDARD at
usage 130 is billed 800. -/
theorem internet_calculateBill_plan_overage :
    (∀ (addr : Address) (usage : ℚ),
      InternetManagement.calculateBill ⟨addr, usage, .NO_SERVICE⟩ = .ok 0 ∧
      InternetManagement.calculateBill ⟨addr, usage, .BUSINESS_FIBER⟩ = .ok 1500 ∧
      InternetManagement.getPlanDetails .BUSINESS_FIBER
        = .ok ⟨1500, .infinity, 0, 1000, "Business Fiber Plan"⟩) ∧
    (∀ (addr : Address) (usage : ℚ) (plan : InternetPlan) (details : PlanDetails) (cap : ℚ),
      plan ≠ .NO_SERVICE → plan ≠ .BUSINESS_FIBER →
      InternetManagement.getPlanDetails plan = .ok details →
      details.dataCapGB = .finite cap →
      (cap < usage ∧ 0 < details.overageCostPerGB →
        InternetManagement.calculateBill ⟨addr, usage, plan⟩
          = .ok (details.baseCost + (usage - cap) * 10)) ∧
      (¬ (cap < usage ∧ 0 < details.overageCostPerGB) →
        InternetManagement.calculateBill ⟨addr, usage, plan⟩ = .ok details.baseCost)) ∧
    (∀ (addr : Address) (usage : ℚ),
      (100 < usage →
        InternetManagement.calculateBill ⟨addr, usage, .STANDARD⟩
          = .ok (500 + (usage - 100) * 10)) ∧
      (usage ≤ 100 → InternetManagement.calculateBill ⟨addr, usage, .STANDARD⟩ = .ok 500) ∧
      (200 < usage →
        InternetManagement.calculateBill ⟨addr, usage, .PREMIUM⟩
          = .ok (800 + (usage - 200) * 10)) ∧
      (usage ≤ 200 → InternetManagement.calculateBill ⟨addr, usage, .PREMIUM⟩ = .ok 800)) ∧
    (∀ addr : Address, InternetManagement.calculateBill ⟨addr, 130, .STANDARD⟩ = .ok 800) := by
  refine ⟨fun addr usage => ?_, ?_, fun addr usage => ⟨?_, ?_, ?_, ?_⟩, fun addr => ?_⟩
  · simp [InternetManagement.calculateBill, InternetManagement.calculateBillWith,
      InternetManagement.getPlanDetails, InternetManagement.billFromDetails]
  · intro addr usage plan details cap h1 h2 hd hcap
    constructor
    · intro h
      simp [InternetManagement.calculateBill, InternetManagement.calculateBillWith, hd,
        InternetManagement.billFromDetails, h1, h2, hcap, h.1, h.2]
    · intro h
      have h' : ¬ (usage > cap ∧ details.overageCostPerGB > 0) := h
      simp only [InternetManagement.calculateBill, InternetManagement.calculateBillWith, hd,
        InternetManagement.billFromDetails, if_neg h1, if_neg h2, hcap, if_neg h']
  · intro h
    simp [InternetManagement.calculateBill, InternetManagement.calculateBillWith,
      InternetManagement.getPlanDetails, InternetManagement.billFromDetails, h]
  · intro h
    simp [InternetManagement.calculateBill, InternetManagement.calculateBillWith,
      InternetManagement.getPlanDetails, InternetManagement.billFromDetails, not_lt.mpr h]
  · intro h
    simp [InternetManagement.calculateBill, InternetManagement.calculateBillWith,
      InternetManagement.getPlanDetails, InternetManagement.billFromDetails, h]
  · intro h
    simp [InternetManagement.calculateBill, InternetManagement.calculateBillWith,
      InternetManagement.getPlanDetails, InternetManagement.billFromDetails, not_lt.mpr h]
  · simp [InternetManagement.calculateBill, InternetManagement.calculateBillWith,
      InternetManagement.getPlanDetails, InternetManagement.billFromDetails]
    norm_num

/-- Witness of C5: the general statement applied to STANDARD, whose catalog
entry has base cost 500, cap 100 and a positive overage rate, at usage 130. -/
theorem internet_calculateBill_plan_overage_witness :
    InternetManagement.calculateBill ⟨exampleAddress, 130, .STANDARD⟩
      = .ok (500 + (130 - 100) * 10) :=
  (internet_calculateBill_plan_overage.2.1 exampleAddress 130 .STANDARD
    ⟨500, .finite 100, 10, 50, "Standard Plan"⟩ 100 (by decide) (by decide) rfl rfl).1
    (by norm_num)

theorem billFromDetails_congr (d d' : PlanDetails) (self : InternetManagement)
    (h : DiffersOnlyInOverage d d') :
    InternetManagement.billFromDetails d' self = InternetManagement.billFromDetails d self := by
  obtain ⟨hbase, hcap, -, -, hpos, hpos'⟩ := h
  unfold InternetManagement.billFromDetails
  rw [hbase, hcap]
  cases d.dataCapGB with
  | finite cap => simp only [gt_iff_lt, hpos, hpos', and_true]
  | infinity => rfl

/-- C6. `calculateBill` is its body over the catalog `getPlanDetails`, and the
body gives the same bill, for every account, over two catalogs that differ
only in the `overageCostPerGB` of one plan, positive in both. PREMIUM, whose
`overageCostPerGB` is 80, is billed `800 + (u - 200) * 10` at every usage
`u > 200`, which is not `800 + (u - 200) * 80`. -/
theorem internet_overage_rate_not_applied :
    (∀ self : InternetManagement,
      InternetManagement.calculateBill self
        = InternetManagement.calculateBillWith InternetManagement.getPlanDetails self) ∧
    (∀ (plan : InternetPlan) (catalog catalog' : PlanCatalog) (self : InternetManagement),
      CatalogsDifferOnlyInOverage plan catalog catalog' →
      InternetManagement.calculateBillWith catalog self
        = InternetManagement.calculateBillWith catalog' self) ∧
    (∀ (addr : Address) (u : ℚ), 200 < u →
      InternetManagement.getPlanDetails .PREMIUM
        = .ok ⟨800, .finite 200, 80, 100, "Premium Plan"⟩ ∧
      InternetManagement.calculateBill ⟨addr, u, .PREMIUM⟩ = .ok (800 + (u - 200) * 10) ∧
      InternetManagement.calculateBill ⟨addr, u, .PREMIUM⟩ ≠ .ok (800 + (u - 200) * 80)) := by
  refine ⟨fun _ => rfl, ?_, ?_⟩
  · intro plan catalog catalog' self ⟨hother, d, d', hd, hd', hdiff⟩
    unfold InternetManagement.calculateBillWith
    by_cases hp : self.currentPlan = plan
    · rw [hp, hd, hd']
      simp only [billFromDetails_congr d d' self hdiff]
    · rw [hother self.currentPlan hp]
  · intro addr u hu
    have hbill : InternetManagement.calculateBill ⟨addr, u, .PREMIUM⟩
        = .ok (800 + (u - 200) * 10) := by
      simp [InternetManagement.calculateBill, InternetManagement.calculateBillWith,
        InternetManagement.getPlanDetails, InternetManagement.billFromDetails, hu]
    refine ⟨rfl, hbill, ?_⟩
    rw [hbill]
    intro h
    injection h with h
    linarith

/-- Witness of C6: the catalog of `getPlanDetails` against the same catalog
with the PREMIUM overage rate at 10 instead of 80, at usage 250. -/
theorem internet_overage_rate_not_applied_witness :
    CatalogsDifferOnlyInOverage .PREMIUM InternetManagement.getPlanDetails
        (catalogWithPremiumOverage 10) ∧
      InternetManagement.calculateBillWith InternetManagement.getPlanDetails
          ⟨exampleAddress, 250, .PREMIUM⟩
        = InternetManagement.calculateBillWith (catalogWithPremiumOverage 10)
          ⟨exampleAddress, 250, .PREMIUM⟩ := by
  have hdiff : CatalogsDifferOnlyInOverage .PREMIUM InternetManagement.getPlanDetails
      (catalogWithPremiumOverage 10) := by
    refine ⟨fun q hq => ?_, ⟨800, .finite 200, 80, 100, "Premium Plan"⟩,
      ⟨800, .finite 200, 10, 100, "Premium Plan"⟩, rfl, rfl, ?_⟩
    · cases q <;> first | rfl | exact absurd rfl hq
    · norm_num [DiffersOnlyInOverage]
  exact ⟨hdiff, internet_overage_rate_not_applied.2.1 .PREMIUM InternetManagement.getPlanDetails
    (catalogWithPremiumOverage 10) ⟨exampleAddress, 250, .PREMIUM⟩ hdiff⟩

/-! ### An unbounded last tier -/

/-- C12. A negative amount passed to `ElectricityManagement::addUsage`,
`addLocalGeneration`, `GasManagement::addUsage`, `WaterManagement::addConsumption`
or `InternetManagement::addDataUsage` throws `invalid_argument` and leaves the
account, every field of it, as it was; a non-negative amount does not throw. -/
theorem mutators_reject_negative_amounts :
    (∀ (self : ElectricityManagement) (kWh : ℚ),
      (kWh < 0 → self.addUsage kWh = ⟨self, some .invalid_argument⟩) ∧
      (0 ≤ kWh → (self.addUsage kWh).thrown = none)) ∧
    (∀ (self : ElectricityManagement) (kWh : ℚ),
      (kWh < 0 → self.addLocalGeneration kWh = ⟨self, some .invalid_argument⟩) ∧
      (0 ≤ kWh → (self.addLocalGeneration kWh).thrown = none)) ∧
    (∀ (self : GasManagement) (m3 : ℚ),
      (m3 < 0 → self.addUsage m3 = ⟨self, some .invalid_argument⟩) ∧
      (0 ≤ m3 → (self.addUsage m3).thrown = none)) ∧
    (∀ (self : WaterManagement) (cubicMeters : ℚ),
      (cubicMeters < 0 → self.addConsumption cubicMeters = ⟨self, some .invalid_argument⟩) ∧
      (0 ≤ cubicMeters → (self.addConsumption cubicMeters).thrown = none)) ∧
    (∀ (self : InternetManagement) (data : ℚ),
      (data < 0 → self.addDataUsage data = ⟨self, some .invalid_argument⟩) ∧
      (0 ≤ data → (self.addDataUsage data).thrown = none)) := by
  refine ⟨fun self x => ⟨fun h => ?_, fun h => ?_⟩, fun self x => ⟨fun h => ?_, fun h => ?_⟩,
    fun self x => ⟨fun h => ?_, fun h => ?_⟩, fun self x => ⟨fun h => ?_, fun h => ?_⟩,
    fun self x => ⟨fun h => ?_, fun h => ?_⟩⟩
  · simp [ElectricityManagement.addUsage, h]
  · simp [ElectricityManagement.addUsage, not_lt.mpr h]
  · simp [ElectricityManagement.addLocalGeneration, h]
  · simp [ElectricityManagement.addLocalGeneration, not_lt.mpr h]
  · simp [GasManagement.addUsage, h]
  · simp [GasManagement.addUsage, not_lt.mpr h]
  · simp [WaterManagement.addConsumption, h]
  · simp [WaterManagement.addConsumption, not_lt.mpr h]
  · simp [InternetManagement.addDataUsage, h]
  · simp [InternetManagement.addDataUsage, not_lt.mpr h]

/-- Witness of C12: `addUsage(-5)` on an electricity account and
`addConsumption(-1)` on a water account. -/
theorem mutators_reject_negative_amounts_witness :
    ElectricityManagement.addUsage ⟨exampleAddress, 100, 60, .GRID_TIED_SOLAR⟩ (-5)
        = ⟨⟨exampleAddress, 100, 60, .GRID_TIED_SOLAR⟩, some .invalid_argument⟩ ∧
      WaterManagement.addConsumption ⟨exampleAddress, 15, .RESIDENTIAL_STANDARD⟩ (-1)
        = ⟨⟨exampleAddress, 15, .RESIDENTIAL_STANDARD⟩, some .invalid_argument⟩ :=
  ⟨(mutators_reject_negative_amounts.1 ⟨exampleAddress, 100, 60, .GRID_TIED_SOLAR⟩ (-5)).1
      (by norm_num),
   (mutators_reject_negative_amounts.2.2.2.1 ⟨exampleAddress, 15, .RESIDENTIAL_STANDARD⟩
      (-1)).1 (by norm_num)⟩

/-! ### What a successful construction returns -/

theorem electricity_construct_ok {ad : Address} {strategy : ElectricitySupplyStrategy}
    {c0 g0 : ℚ} {acct : ElectricityManagement}
    (h : ElectricityManagement.construct ad strategy c0 g0 = .ok acct) :
    acct = ⟨ad, c0, g0, strategy⟩ ∧ 0 ≤ c0 ∧ 0 ≤ g0 := by
  unfold ElectricityManagement.construct at h
  split_ifs at h with hneg
  injection h with h
  push_neg at hneg
  exact ⟨h.symm, hneg.1, hneg.2⟩

theorem water_construct_ok {store : PlanDetailsStore} {ad : Address} {plan : WaterTariffPlan}
    {c0 : ℚ} {acct : WaterManagement}
    (h : WaterManagement.construct store ad plan c0 = .ok acct) :
    acct = ⟨ad, c0, plan⟩ ∧ 0 ≤ c0 ∧ ∃ info, store plan = some info := by
  unfold WaterManagement.construct at h
  split_ifs at h with hneg
  cases hs : store plan with
  | none => simp [hs] at h
  | some info =>
      simp only [hs] at h
      injection h with h
      exact ⟨h.symm, not_lt.mp hneg, info, rfl⟩

theorem internet_construct_ok {ad : Address} {plan : InternetPlan} {u0 : ℚ}
    {acct : InternetManagement} (h : InternetManagement.construct ad plan u0 = .ok acct) :
    acct = ⟨ad, u0, plan⟩ ∧ 0 ≤ u0 := by
  unfold InternetManagement.construct at h
  split_ifs at h with hneg
  injection h with h
  exact ⟨h.symm, not_lt.mp hneg⟩

/-! ### Plan and strategy changes -/

theorem water_setCurrentPlan_of_entry (store : PlanDetailsStore) (self : WaterManagement)
    (newPlan : WaterTariffPlan) (info : WaterPlanInfo) (h : store newPlan = some info) :
    self.setCurrentPlan store newPlan = ⟨⟨self.address, 0, newPlan⟩, none⟩ := by
  simp [WaterManagement.setCurrentPlan, WaterManagement.getPlanDisplayName,
    WaterManagement.getCurrentPlanInfo, h]

theorem water_setCurrentPlan_of_no_entry (store : PlanDetailsStore) (self : WaterManagement)
    (newPlan : WaterTariffPlan) (h : store newPlan = none) :
    self.setCurrentPlan store newPlan = ⟨self, some .invalid_argument⟩ := by
  simp [WaterManagement.setCurrentPlan, h]

/-- C14. For every water account and every new plan with an entry in the plan
store, and for every internet account and every new plan of the enumeration,
the plan in force included, `setCurrentPlan` throws nothing and leaves the
current plan at the new plan, the consumption (`consumptionCubicMeters`,
`dataUsedGB`) at 0 and the address as it was. -/
theorem setCurrentPlan_resets_usage :
    (∀ (store : PlanDetailsStore) (self : WaterManagement) (newPlan : WaterTariffPlan)
        (info : WaterPlanInfo), store newPlan = some info →
      (self.setCurrentPlan store newPlan).thrown = none ∧
      (self.setCurrentPlan store newPlan).after.getCurrentPlanType = newPlan ∧
      (self.setCurrentPlan store newPlan).after.getConsumptionCubicMeters = 0 ∧
      (self.setCurrentPlan store newPlan).after.getAddress = self.getAddress) ∧
    (∀ (self : InternetManagement) (newPlan : InternetPlan), newPlan ≠ .UNRECOGNIZED →
      (self.setCurrentPlan newPlan).thrown = none ∧
      (self.setCurrentPlan newPlan).after.getCurrentPlan = newPlan ∧
      (self.setCurrentPlan newPlan).after.getDataUsedGB = 0 ∧
      (self.setCurrentPlan newPlan).after.getAddress = self.getAddress) := by
  constructor
  · intro store self newPlan info h
    rw [water_setCurrentPlan_of_entry store self newPlan info h]
    exact ⟨rfl, rfl, rfl, rfl⟩
  · intro self newPlan h
    cases newPlan <;>
      first
      | exact absurd rfl h
      | exact ⟨rfl, rfl, rfl, rfl⟩

/-- Witness of C14: a water account on RESIDENTIAL_STANDARD with consumption 15
set to RESIDENTIAL_STANDARD again, and an internet account on STANDARD with
130 GB used set to PREMIUM. -/
theorem setCurrentPlan_resets_usage_witness :
    WaterManagement.getConsumptionCubicMeters
        (WaterManagement.setCurrentPlan residentialStore
          ⟨exampleAddress, 15, .RESIDENTIAL_STANDARD⟩ .RESIDENTIAL_STANDARD).after = 0 ∧
      InternetManagement.getDataUsedGB
        (InternetManagement.setCurrentPlan ⟨exampleAddress, 130, .STANDARD⟩ .PREMIUM).after
        = 0 :=
  ⟨(setCurrentPlan_resets_usage.1 residentialStore ⟨exampleAddress, 15, .RESIDENTIAL_STANDARD⟩
      .RESIDENTIAL_STANDARD ⟨"Residential Standard", exampleTiers⟩ rfl).2.2.1,
   (setCurrentPlan_resets_usage.2 ⟨exampleAddress, 130, .STANDARD⟩ .PREMIUM
      (by decide)).2.2.1⟩

/-- C15. For every electricity account and every strategy `s`,
`setSupplyStrategy(s)` throws nothing and leaves the strategy at `s`, while
`totalConsumption`, `localGeneration` and the address are as they were. -/
theorem electricity_setSupplyStrategy_keeps_accumulators
    (self : ElectricityManagement) (s : ElectricitySupplyStrategy) :
    (self.setSupplyStrategy s).thrown = none ∧
      (self.setSupplyStrategy s).after.getSupplyStrategy = s ∧
      (self.setSupplyStrategy s).after.getTotalConsumption = self.getTotalConsumption ∧
      (self.setSupplyStrategy s).after.getLocalGeneration = self.getLocalGeneration ∧
      (self.setSupplyStrategy s).after.getAddress = self.getAddress :=
  ⟨rfl, rfl, rfl, rfl, rfl⟩

/-! ### Construction -/

/-- C17. Each constructor throws `invalid_argument` when an initial numeric
argument (consumption, data usage, generation) is negative. With non-negative
arguments the electricity, gas and internet constructors return an account,
whatever the tag, and the water constructor returns one when the plan has an
entry in the plan store; the getters of the account return the arguments. -/
theorem construction_validates_amounts :
    (∀ (ad : Address) (strategy : ElectricitySupplyStrategy) (c0 g0 : ℚ),
      (c0 < 0 ∨ g0 < 0 →
        ElectricityManagement.construct ad strategy c0 g0 = .error .invalid_argument) ∧
      (0 ≤ c0 → 0 ≤ g0 →
        ∃ acct, ElectricityManagement.construct ad strategy c0 g0 = .ok acct ∧
          acct.getAddress = ad ∧ acct.getSupplyStrategy = strategy ∧
          acct.getTotalConsumption = c0 ∧ acct.getLocalGeneration = g0)) ∧
    (∀ (ad : Address) (c0 : ℚ),
      (c0 < 0 → GasManagement.construct ad c0 = .error .invalid_argument) ∧
      (0 ≤ c0 →
        ∃ acct, GasManagement.construct ad c0 = .ok acct ∧
          acct.getAddress = ad ∧ acct.getTotalConsumption = c0)) ∧
    (∀ (store : PlanDetailsStore) (ad : Address) (plan : WaterTariffPlan) (c0 : ℚ),
      (c0 < 0 → WaterManagement.construct store ad plan c0 = .error .invalid_argument) ∧
      (∀ info, 0 ≤ c0 → store plan = some info →
        ∃ acct, WaterManagement.construct store ad plan c0 = .ok acct ∧
          acct.getAddress = ad ∧ acct.getCurrentPlanType = plan ∧
          acct.getConsumptionCubicMeters = c0)) ∧
    (∀ (ad : Address) (plan : InternetPlan) (u0 : ℚ),
      (u0 < 0 → InternetManagement.construct ad plan u0 = .error .invalid_argument) ∧
      (0 ≤ u0 →
        ∃ acct, InternetManagement.construct ad plan u0 = .ok acct ∧
          acct.getAddress = ad ∧ acct.getCurrentPlan = plan ∧ acct.getDataUsedGB = u0)) := by
  refine ⟨fun ad strategy c0 g0 => ⟨fun h => ?_, fun hc hg => ?_⟩,
    fun ad c0 => ⟨fun h => ?_, fun hc => ?_⟩,
    fun store ad plan c0 => ⟨fun h => ?_, fun info hc hs => ?_⟩,
    fun ad plan u0 => ⟨fun h => ?_, fun hu => ?_⟩⟩
  · simp [ElectricityManagement.construct, h]
  · have hneg : ¬ (c0 < 0 ∨ g0 < 0) := by
      push_neg
      exact ⟨hc, hg⟩
    exact ⟨⟨ad, c0, g0, strategy⟩, by simp only [ElectricityManagement.construct, if_neg hneg],
      rfl, rfl, rfl, rfl⟩
  · simp [GasManagement.construct, h]
  · exact ⟨⟨ad, c0⟩, by simp only [GasManagement.construct, if_neg (not_lt.mpr hc)], rfl, rfl⟩
  · simp [WaterManagement.construct, h]
  · exact ⟨⟨ad, c0, plan⟩,
      by simp only [WaterManagement.construct, if_neg (not_lt.mpr hc), hs], rfl, rfl, rfl⟩
  · simp [InternetManagement.construct, h]
  · exact ⟨⟨ad, u0, plan⟩,
      by simp only [InternetManagement.construct, if_neg (not_lt.mpr hu)], rfl, rfl, rfl⟩

/-- Witness of C17: an electricity account constructed with generation -1, and
one constructed with consumption 100 and generation 60. -/
theorem construction_validates_amounts_witness :
    ElectricityManagement.construct exampleAddress .GRID_TIED_SOLAR 100 (-1)
        = .error .invalid_argument ∧
      ∃ acct, ElectricityManagement.construct exampleAddress .GRID_TIED_SOLAR 100 60 = .ok acct ∧
        acct.getAddress = exampleAddress ∧ acct.getSupplyStrategy = .GRID_TIED_SOLAR ∧
        acct.getTotalConsumption = 100 ∧ acct.getLocalGeneration = 60 :=
  ⟨(construction_validates_amounts.1 exampleAddress .GRID_TIED_SOLAR 100 (-1)).1
      (Or.inr (by norm_num)),
   (construction_validates_amounts.1 exampleAddress .GRID_TIED_SOLAR 100 60).2
      (by norm_num) (by norm_num)⟩

/-- C18, as amended. The water constructor throws `invalid_argument` when the
plan has no entry in the plan store, whatever the consumption. The electricity
and internet constructors do not look at the tag: with non-negative numeric
arguments they return an account for every tag, and a tag outside the
enumeration is met with `invalid_argument` only later, by `getNetGridEnergy`
and `calculateBill` (electricity) and by `getPlanDetails` and `calculateBill`
(internet). -/
theorem construction_tag_check :
    (∀ (store : PlanDetailsStore) (ad : Address) (plan : WaterTariffPlan) (c0 : ℚ),
      store plan = none →
      WaterManagement.construct store ad plan c0 = .error .invalid_argument) ∧
    (∀ (ad : Address) (strategy : ElectricitySupplyStrategy) (c0 g0 : ℚ), 0 ≤ c0 → 0 ≤ g0 →
      ElectricityManagement.construct ad strategy c0 g0 = .ok ⟨ad, c0, g0, strategy⟩) ∧
    (∀ (ad : Address) (plan : InternetPlan) (u0 : ℚ), 0 ≤ u0 →
      InternetManagement.construct ad plan u0 = .ok ⟨ad, u0, plan⟩) ∧
    (∀ (rates : ElectricityRateTable) (ad : Address) (c0 g0 : ℚ),
      ElectricityManagement.getNetGridEnergy ⟨ad, c0, g0, .UNRECOGNIZED⟩
        = .error .invalid_argument ∧
      ElectricityManagement.calculateBill rates ⟨ad, c0, g0, .UNRECOGNIZED⟩
        = .error .invalid_argument) ∧
    (∀ (ad : Address) (u0 : ℚ),
      InternetManagement.getPlanDetails .UNRECOGNIZED = .error .invalid_argument ∧
      InternetManagement.calculateBill ⟨ad, u0, .UNRECOGNIZED⟩ = .error .invalid_argument) := by
  refine ⟨fun store ad plan c0 hs => ?_, fun ad strategy c0 g0 hc hg => ?_,
    fun ad plan u0 hu => ?_, fun rates ad c0 g0 => ⟨?_, ?_⟩, fun ad u0 => ⟨rfl, rfl⟩⟩
  · unfold WaterManagement.construct
    split_ifs
    · rfl
    · simp [hs]
  · have hneg : ¬ (c0 < 0 ∨ g0 < 0) := by
      push_neg
      exact ⟨hc, hg⟩
    simp only [ElectricityManagement.construct, if_neg hneg]
  · simp only [InternetManagement.construct, if_neg (not_lt.mpr hu)]
  · simp [ElectricityManagement.getNetGridEnergy]
  · simp [ElectricityManagement.calculateBill, ElectricityManagement.getNetGridEnergy]

/-- Witness of C18 as amended: a water account on a plan the store does not
list, and an internet account on a tag outside the enumeration. -/
theorem construction_tag_check_witness :
    WaterManagement.construct residentialStore exampleAddress .COMMERCIAL_STANDARD 15
        = .error .invalid_argument ∧
      InternetManagement.construct exampleAddress .UNRECOGNIZED 130
        = .ok ⟨exampleAddress, 130, .UNRECOGNIZED⟩ :=
  ⟨construction_tag_check.1 residentialStore exampleAddress .COMMERCIAL_STANDARD 15 rfl,
   construction_tag_check.2.2.1 exampleAddress .UNRECOGNIZED 130 (by norm_num)⟩

/-- C18 as stated fails: with all numeric arguments 0, the electricity
constructor and the internet constructor return an account for a tag outside
the enumeration; neither throws `invalid_argument`. -/
theorem constructors_accept_unrecognized_tag :
    ElectricityManagement.construct exampleAddress .UNRECOGNIZED 0 0
        = .ok ⟨exampleAddress, 0, 0, .UNRECOGNIZED⟩ ∧
      ElectricityManagement.construct exampleAddress .UNRECOGNIZED 0 0
        ≠ .error .invalid_argument ∧
      InternetManagement.construct exampleAddress .UNRECOGNIZED 0
        = .ok ⟨exampleAddress, 0, .UNRECOGNIZED⟩ ∧
      InternetManagement.construct exampleAddress .UNRECOGNIZED 0
        ≠ .error .invalid_argument := by
  have h1 : ElectricityManagement.construct exampleAddress .UNRECOGNIZED 0 0
      = .ok ⟨exampleAddress, 0, 0, .UNRECOGNIZED⟩ := by
    simp [ElectricityManagement.construct]
  have h2 : InternetManagement.construct exampleAddress .UNRECOGNIZED 0
      = .ok ⟨exampleAddress, 0, .UNRECOGNIZED⟩ := by
    simp [InternetManagement.construct]
  refine ⟨h1, ?_, h2, ?_⟩
  · rw [h1]
    exact fun h => by cases h
  · rw [h2]
    exact fun h => by cases h

/-- C19. `WaterManagement::setCurrentPlan` with a plan that has no entry in
the plan store throws `invalid_argument` and leaves the account as it was,
current plan and accumulated consumption included; whenever the call throws,
the account is as it was, so the reset to 0 comes only with a call that
succeeds. -/
theorem water_setCurrentPlan_rejects_unknown_plan
    (store : PlanDetailsStore) (self : WaterManagement) (newPlan : WaterTariffPlan) :
    (store newPlan = none →
      (self.setCurrentPlan store newPlan).thrown = some .invalid_argument ∧
      (self.setCurrentPlan store newPlan).after = self ∧
      (self.setCurrentPlan store newPlan).after.getCurrentPlanType = self.getCurrentPlanType ∧
      (self.setCurrentPlan store newPlan).after.getConsumptionCubicMeters
        = self.getConsumptionCubicMeters) ∧
    ((self.setCurrentPlan store newPlan).thrown ≠ none →
      store newPlan = none ∧ (self.setCurrentPlan store newPlan).after = self) := by
  constructor
  · intro h
    rw [water_setCurrentPlan_of_no_entry store self newPlan h]
    exact ⟨rfl, rfl, rfl, rfl⟩
  · intro hthrown
    cases hs : store newPlan with
    | none =>
        rw [water_setCurrentPlan_of_no_entry store self newPlan hs]
        exact ⟨rfl, rfl⟩
    | some info =>
        rw [water_setCurrentPlan_of_entry store self newPlan info hs] at hthrown
        exact absurd rfl hthrown

/-- Witness of C19: COMMERCIAL_STANDARD, which `residentialStore` does not
list, set on an account with consumption 15. -/
theorem water_setCurrentPlan_rejects_unknown_plan_witness :
    (WaterManagement.setCurrentPlan residentialStore
        ⟨exampleAddress, 15, .RESIDENTIAL_STANDARD⟩ .COMMERCIAL_STANDARD).thrown
        = some .invalid_argument ∧
      (WaterManagement.setCurrentPlan residentialStore
        ⟨exampleAddress, 15, .RESIDENTIAL_STANDARD⟩ .COMMERCIAL_STANDARD).after
        = ⟨exampleAddress, 15, .RESIDENTIAL_STANDARD⟩ :=
  let h := (water_setCurrentPlan_rejects_unknown_plan residentialStore
    ⟨exampleAddress, 15, .RESIDENTIAL_STANDARD⟩ .COMMERCIAL_STANDARD).1 rfl
  ⟨h.1, h.2.1⟩

/-! ### Invariants of a sequence of calls -/

theorem afterCalls_invariant {σ μ : Type} (call : σ → μ → Call σ) (P : σ → Prop)
    (hstep : ∀ s m, P s → P (call s m).after) :
    ∀ (calls : List μ) (s : σ), P s → P (afterCalls call s calls)
  | [], _, h => h
  | m :: rest, s, h => by
      have := afterCalls_invariant call P hstep rest (call s m).after (hstep s m h)
      simpa [afterCalls] using this

/-- C21. On the NO_SUPPLY plan `calculateBill` returns 0 for every accumulated
consumption and every plan store, with or without an entry for NO_SUPPLY and
whatever tiers the entry lists. -/
theorem water_calculateBill_no_supply (store : PlanDetailsStore) (addr : Address) (c : ℚ) :
    WaterManagement.calculateBill store ⟨addr, c, .NO_SUPPLY⟩ = .ok 0 := by
  simp [WaterManagement.calculateBill]

/-- C22. Under SOLAR_PRIMARY and WIND_PRIMARY, for every consumption and
generation, generation below consumption included, and every unit price and
feed-in tariff, `getNetGridEnergy` returns 0 and `calculateBill` returns 0. -/
theorem electricity_self_generation_zero_bill
    (rates : ElectricityRateTable) (addr : Address) (consumption generation : ℚ) :
    ElectricityManagement.getNetGridEnergy ⟨addr, consumption, generation, .SOLAR_PRIMARY⟩
        = .ok 0 ∧
      ElectricityManagement.getNetGridEnergy ⟨addr, consumption, generation, .WIND_PRIMARY⟩
        = .ok 0 ∧
      ElectricityManagement.calculateBill rates ⟨addr, consumption, generation, .SOLAR_PRIMARY⟩
        = .ok 0 ∧
      ElectricityManagement.calculateBill rates ⟨addr, consumption, generation, .WIND_PRIMARY⟩
        = .ok 0 := by
  simp [ElectricityManagement.calculateBill, ElectricityManagement.getNetGridEnergy]

theorem water_call_keeps_entry (store : PlanDetailsStore) (s : WaterManagement)
    (m : WaterMutation) (h : ∃ info, store s.currentPlan = some info) :
    ∃ info, store (WaterMutation.call store s m).after.currentPlan = some info := by
  cases m with
  | addConsumption cubicMeters =>
      simp only [WaterMutation.call, WaterManagement.addConsumption]
      split_ifs <;> exact h
  | setCurrentPlan newPlan =>
      simp only [WaterMutation.call]
      cases hs : store newPlan with
      | none =>
          rw [water_setCurrentPlan_of_no_entry store s newPlan hs]
          exact h
      | some info =>
          rw [water_setCurrentPlan_of_entry store s newPlan info hs]
          exact ⟨info, hs⟩

theorem water_reports_of_entry (store : PlanDetailsStore) (s : WaterManagement)
    (h : ∃ info, store s.currentPlan = some info) :
    (∃ info, WaterManagement.getCurrentPlanInfo store s = .ok info) ∧
      (∃ bill, WaterManagement.calculateBill store s = .ok bill) ∧
      (∃ line, (WaterManagement.supply store s).printed = .ok line) ∧
      (∃ status, (WaterManagement.showStatus store s).printed = .ok status) := by
  obtain ⟨info, hinfo⟩ := h
  have hget : WaterManagement.getCurrentPlanInfo store s = .ok info := by
    simp [WaterManagement.getCurrentPlanInfo, hinfo]
  have hbill : ∃ bill, WaterManagement.calculateBill store s = .ok bill := by
    unfold WaterManagement.calculateBill
    split_ifs
    · exact ⟨0, rfl⟩
    · rw [hget]
      exact ⟨_, rfl⟩
  refine ⟨⟨info, hget⟩, hbill, ?_, ?_⟩
  · simp only [WaterManagement.supply, WaterManagement.getPlanDisplayName, hget]
    split_ifs
    · exact ⟨_, rfl⟩
    · exact ⟨_, rfl⟩
  · obtain ⟨bill, hb⟩ := hbill
    simp only [WaterManagement.showStatus, hget, hb]
    split_ifs
    · exact ⟨_, rfl⟩
    · exact ⟨_, rfl⟩

theorem electricity_reports_of_recognized (rates : ElectricityRateTable)
    (s : ElectricityManagement) (h : s.supplyStrategy ≠ .UNRECOGNIZED) :
    (∃ net, ElectricityManagement.getNetGridEnergy s = .ok net) ∧
      (∃ bill, ElectricityManagement.calculateBill rates s = .ok bill) ∧
      (∃ line, (ElectricityManagement.supply s).printed = .ok line) ∧
      (∃ status, (ElectricityManagement.showStatus rates s).printed = .ok status) := by
  have hnet : ∃ net, ElectricityManagement.getNetGridEnergy s = .ok net := by
    rcases s with ⟨addr, cons, gen, strategy⟩
    cases strategy <;> simp_all [ElectricityManagement.getNetGridEnergy]
  obtain ⟨net, hnet⟩ := hnet
  have hbill : ∃ bill, ElectricityManagement.calculateBill rates s = .ok bill := by
    simp only [ElectricityManagement.calculateBill, hnet]
    split_ifs <;> exact ⟨_, rfl⟩
  refine ⟨⟨net, hnet⟩, hbill, ?_, ?_⟩
  · simp only [ElectricityManagement.supply, hnet]
    split_ifs <;> exact ⟨_, rfl⟩
  · obtain ⟨bill, hb⟩ := hbill
    simp only [ElectricityManagement.showStatus, hnet, hb]
    split_ifs <;> exact ⟨_, rfl⟩

theorem internet_reports_of_recognized (s : InternetManagement)
    (h : s.currentPlan ≠ .UNRECOGNIZED) :
    (∃ details, InternetManagement.getPlanDetails s.currentPlan = .ok details) ∧
      (∃ bill, InternetManagement.calculateBill s = .ok bill) ∧
      (∃ line, (InternetManagement.supply s).printed = .ok line) ∧
      (∃ status, (InternetManagement.showStatus s).printed = .ok status) := by
  have hdet : ∃ details, InternetManagement.getPlanDetails s.currentPlan = .ok details := by
    rcases s with ⟨addr, used, plan⟩
    cases plan <;> simp_all [InternetManagement.getPlanDetails]
  obtain ⟨details, hdet⟩ := hdet
  have hbill : InternetManagement.calculateBill s
      = .ok (InternetManagement.billFromDetails details s) := by
    simp only [InternetManagement.calculateBill, InternetManagement.calculateBillWith, hdet]
  refine ⟨⟨details, hdet⟩, ⟨_, hbill⟩, ?_, ?_⟩
  · simp only [InternetManagement.supply, InternetManagement.planToString,
      InternetManagement.getCurrentSpeed, hdet]
    split_ifs <;> exact ⟨_, rfl⟩
  · simp only [InternetManagement.showStatus, hdet, hbill]
    split_ifs <;> exact ⟨_, rfl⟩

theorem electricity_call_keeps_recognized (s : ElectricityManagement) (m : ElectricityMutation)
    (hm : m.Recognized) (h : s.supplyStrategy ≠ .UNRECOGNIZED) :
    (ElectricityMutation.call s m).after.supplyStrategy ≠ .UNRECOGNIZED := by
  cases m with
  | addUsage kWh =>
      simp only [ElectricityMutation.call, ElectricityManagement.addUsage]
      split_ifs <;> exact h
  | addLocalGeneration kWh =>
      simp only [ElectricityMutation.call, ElectricityManagement.addLocalGeneration]
      split_ifs <;> exact h
  | setSupplyStrategy newStrategy => exact hm

theorem internet_call_keeps_recognized (s : InternetManagement) (m : InternetMutation)
    (hm : m.Recognized) (h : s.currentPlan ≠ .UNRECOGNIZED) :
    (InternetMutation.call s m).after.currentPlan ≠ .UNRECOGNIZED := by
  cases m with
  | addDataUsage data =>
      simp only [InternetMutation.call, InternetManagement.addDataUsage]
      split_ifs <;> exact h
  | setCurrentPlan newPlan =>
      have hp : newPlan ≠ .UNRECOGNIZED := hm
      cases newPlan <;> first | exact absurd rfl hp | exact fun h => by cases h

/-- An invariant that every call of a list keeps, each call under a condition
the list meets, holds after the list. -/
theorem afterCalls_invariant_of {σ μ : Type} (call : σ → μ → Call σ) (P : σ → Prop)
    (Q : μ → Prop) (hstep : ∀ s m, Q m → P s → P (call s m).after) :
    ∀ (calls : List μ) (s : σ), (∀ m ∈ calls, Q m) → P s → P (afterCalls call s calls)
  | [], _, _, h => h
  | m :: rest, s, hq, h => by
      have := afterCalls_invariant_of call P Q hstep rest (call s m).after
        (fun x hx => hq x (List.mem_cons_of_mem _ hx))
        (hstep s m (hq m (List.mem_cons_self _ _)) h)
      simpa [afterCalls] using this

/-- C24, as amended. In every water account reached from a successful
construction by mutator calls, rejected ones included, the current plan has an
entry in the plan store, so `getCurrentPlanInfo` does not throw and neither do
`calculateBill`, `supply` and `showStatus`. The reporting functions of a gas
account do not throw. Those of an electricity or internet account do not throw
whenever the current strategy or plan is a tag of the enumeration, and it is
one in every account reached from a construction with such a tag by calls
that pass such tags. -/
theorem reporting_never_fails_on_validated_tags :
    (∀ (store : PlanDetailsStore) (ad : Address) (plan : WaterTariffPlan) (c0 : ℚ)
        (acct : WaterManagement) (calls : List WaterMutation),
      WaterManagement.construct store ad plan c0 = .ok acct →
      (∃ info, store (afterCalls (WaterMutation.call store) acct calls).currentPlan
        = some info) ∧
      (∃ info, WaterManagement.getCurrentPlanInfo store
        (afterCalls (WaterMutation.call store) acct calls) = .ok info) ∧
      (∃ bill, WaterManagement.calculateBill store
        (afterCalls (WaterMutation.call store) acct calls) = .ok bill) ∧
      (∃ line, (WaterManagement.supply store
        (afterCalls (WaterMutation.call store) acct calls)).printed = .ok line) ∧
      (∃ status, (WaterManagement.showStatus store
        (afterCalls (WaterMutation.call store) acct calls)).printed = .ok status)) ∧
    (∀ (rates : GasRateTable) (self : GasManagement),
      (∃ line, (GasManagement.supply self).printed = .ok line) ∧
      (∃ status, (GasManagement.showStatus rates self).printed = .ok status)) ∧
    (∀ (rates : ElectricityRateTable) (self : ElectricityManagement),
      self.supplyStrategy ≠ .UNRECOGNIZED →
      (∃ net, ElectricityManagement.getNetGridEnergy self = .ok net) ∧
      (∃ bill, ElectricityManagement.calculateBill rates self = .ok bill) ∧
      (∃ line, (ElectricityManagement.supply self).printed = .ok line) ∧
      (∃ status, (ElectricityManagement.showStatus rates self).printed = .ok status)) ∧
    (∀ (ad : Address) (strategy : ElectricitySupplyStrategy) (c0 g0 : ℚ)
        (acct : ElectricityManagement) (calls : List ElectricityMutation),
      strategy ≠ .UNRECOGNIZED → (∀ m ∈ calls, m.Recognized) →
      ElectricityManagement.construct ad strategy c0 g0 = .ok acct →
      (afterCalls ElectricityMutation.call acct calls).supplyStrategy ≠ .UNRECOGNIZED) ∧
    (∀ (self : InternetManagement), self.currentPlan ≠ .UNRECOGNIZED →
      (∃ details, InternetManagement.getPlanDetails self.currentPlan = .ok details) ∧
      (∃ bill, InternetManagement.calculateBill self = .ok bill) ∧
      (∃ line, (InternetManagement.supply self).printed = .ok line) ∧
      (∃ status, (InternetManagement.showStatus self).printed = .ok status)) ∧
    (∀ (ad : Address) (plan : InternetPlan) (u0 : ℚ) (acct : InternetManagement)
        (calls : List InternetMutation),
      plan ≠ .UNRECOGNIZED → (∀ m ∈ calls, m.Recognized) →
      InternetManagement.construct ad plan u0 = .ok acct →
      (afterCalls InternetMutation.call acct calls).currentPlan ≠ .UNRECOGNIZED) := by
  refine ⟨?_, fun rates self => ⟨⟨_, rfl⟩, ⟨_, rfl⟩⟩, electricity_reports_of_recognized, ?_,
    internet_reports_of_recognized, ?_⟩
  · intro store ad plan c0 acct calls hc
    obtain ⟨rfl, -, hentry⟩ := water_construct_ok hc
    have hreach := afterCalls_invariant (WaterMutation.call store)
      (fun s => ∃ info, store s.currentPlan = some info) (water_call_keeps_entry store)
      calls ⟨ad, c0, plan⟩ hentry
    exact ⟨hreach, water_reports_of_entry store _ hreach⟩
  · intro ad strategy c0 g0 acct calls hs hcalls hc
    obtain ⟨rfl, -, -⟩ := electricity_construct_ok hc
    exact afterCalls_invariant_of ElectricityMutation.call
      (fun s => s.supplyStrategy ≠ .UNRECOGNIZED) ElectricityMutation.Recognized
      electricity_call_keeps_recognized calls _ hcalls hs
  · intro ad plan u0 acct calls hp hcalls hc
    obtain ⟨rfl, -⟩ := internet_construct_ok hc
    exact afterCalls_invariant_of InternetMutation.call
      (fun s => s.currentPlan ≠ .UNRECOGNIZED) InternetMutation.Recognized
      internet_call_keeps_recognized calls _ hcalls hp

/-- Witness of C24 as amended: a water account constructed on
RESIDENTIAL_STANDARD, then a rejected `setCurrentPlan(COMMERCIAL_STANDARD)`
and `addConsumption(15)`. -/
theorem reporting_never_fails_on_validated_tags_witness :
    ∃ bill, WaterManagement.calculateBill residentialStore
      (afterCalls (WaterMutation.call residentialStore)
        ⟨exampleAddress, 0, .RESIDENTIAL_STANDARD⟩
        [.setCurrentPlan .COMMERCIAL_STANDARD, .addConsumption 15]) = .ok bill :=
  (reporting_never_fails_on_validated_tags.1 residentialStore exampleAddress
    .RESIDENTIAL_STANDARD 0 ⟨exampleAddress, 0, .RESIDENTIAL_STANDARD⟩
    [.setCurrentPlan .COMMERCIAL_STANDARD, .addConsumption 15]
    (by simp [WaterManagement.construct, residentialStore])).2.2.1

/-- C24 as stated fails. An electricity account constructed, with success, on
a strategy outside the enumeration throws `invalid_argument` from
`getNetGridEnergy`, `calculateBill`, `supply` and `showStatus`. An internet
account constructed on STANDARD and then given `setCurrentPlan` with a plan
outside the enumeration holds that plan, and `getPlanDetails`,
`calculateBill`, `supply` and `showStatus` throw `invalid_argument`. -/
theorem reporting_fails_on_unrecognized_tag :
    ElectricityManagement.construct exampleAddress .UNRECOGNIZED 0 0
        = .ok ⟨exampleAddress, 0, 0, .UNRECOGNIZED⟩ ∧
      ElectricityManagement.getNetGridEnergy ⟨exampleAddress, 0, 0, .UNRECOGNIZED⟩
        = .error .invalid_argument ∧
      ElectricityManagement.calculateBill ⟨8, 3⟩ ⟨exampleAddress, 0, 0, .UNRECOGNIZED⟩
        = .error .invalid_argument ∧
      (ElectricityManagement.supply ⟨exampleAddress, 0, 0, .UNRECOGNIZED⟩).printed
        = .error .invalid_argument ∧
      (ElectricityManagement.showStatus ⟨8, 3⟩ ⟨exampleAddress, 0, 0, .UNRECOGNIZED⟩).printed
        = .error .invalid_argument ∧
      InternetManagement.construct exampleAddress .STANDARD 0
        = .ok ⟨exampleAddress, 0, .STANDARD⟩ ∧
      afterCalls InternetMutation.call ⟨exampleAddress, 0, .STANDARD⟩
          [.setCurrentPlan .UNRECOGNIZED]
        = ⟨exampleAddress, 0, .UNRECOGNIZED⟩ ∧
      InternetManagement.getPlanDetails .UNRECOGNIZED = .error .invalid_argument ∧
      InternetManagement.calculateBill ⟨exampleAddress, 0, .UNRECOGNIZED⟩
        = .error .invalid_argument ∧
      (InternetManagement.supply ⟨exampleAddress, 0, .UNRECOGNIZED⟩).printed
        = .error .invalid_argument ∧
      (InternetManagement.showStatus ⟨exampleAddress, 0, .UNRECOGNIZED⟩).printed
        = .error .invalid_argument := by
  refine ⟨?_, ?_, ?_, ?_, ?_, ?_, rfl, rfl, rfl, rfl, rfl⟩
  · simp [ElectricityManagement.construct]
  · simp [ElectricityManagement.getNetGridEnergy]
  · simp [ElectricityManagement.calculateBill, ElectricityManagement.getNetGridEnergy]
  · simp [ElectricityManagement.supply, ElectricityManagement.getNetGridEnergy]
  · simp [ElectricityManagement.showStatus, ElectricityManagement.getNetGridEnergy]
  · simp [InternetManagement.construct]

theorem internet_bill_standard (addr : Address) (u : ℚ) :
    InternetManagement.calculateBill ⟨addr, u, .STANDARD⟩
      = .ok (if 100 < u then 500 + (u - 100) * 10 else 500) := by
  by_cases h : 100 < u <;>
    simp [InternetManagement.calculateBill, InternetManagement.calculateBillWith,
      InternetManagement.getPlanDetails, InternetManagement.billFromDetails, h]

theorem internet_bill_premium (addr : Address) (u : ℚ) :
    InternetManagement.calculateBill ⟨addr, u, .PREMIUM⟩
      = .ok (if 200 < u then 800 + (u - 200) * 10 else 800) := by
  by_cases h : 200 < u <;>
    simp [InternetManagement.calculateBill, InternetManagement.calculateBillWith,
      InternetManagement.getPlanDetails, InternetManagement.billFromDetails, h]

theorem overage_bill_props {base cap u u' : ℚ} (h : u ≤ u') :
    (if cap < u then base + (u - cap) * 10 else base)
        ≤ (if cap < u' then base + (u' - cap) * 10 else base) ∧
      base ≤ (if cap < u then base + (u - cap) * 10 else base) ∧
      (u ≤ cap → (if cap < u then base + (u - cap) * 10 else base) = base) := by
  refine ⟨?_, ?_, fun hcap => if_neg (not_lt.mpr hcap)⟩
  · split_ifs <;> linarith
  · split_ifs <;> linarith

/-- C27. For every plan of the enumeration, with `details` its catalog entry,
and all usages `0 <= u <= u'`, `calculateBill` returns a bill at `u` and a
bill at `u'`; the first is at most the second, is at least the base cost of
the plan, and is the base cost whenever `u` is at most the data cap. On
STANDARD and PREMIUM the bill from the cap on is the base cost plus 10 per GB
over the cap, so it is the base cost at the cap itself. -/
theorem internet_bill_base_cost_and_cap :
    (∀ (plan : InternetPlan), plan ≠ .UNRECOGNIZED →
      ∃ details, InternetManagement.getPlanDetails plan = .ok details ∧
        ∀ (addr : Address) (u u' : ℚ), 0 ≤ u → u ≤ u' →
          ∃ bill bill',
            InternetManagement.calculateBill ⟨addr, u, plan⟩ = .ok bill ∧
            InternetManagement.calculateBill ⟨addr, u', plan⟩ = .ok bill' ∧
            bill ≤ bill' ∧ details.baseCost ≤ bill ∧
            (Limit.le (.finite u) details.dataCapGB → bill = details.baseCost)) ∧
    (∀ (addr : Address) (u : ℚ),
      (100 ≤ u →
        InternetManagement.calculateBill ⟨addr, u, .STANDARD⟩
          = .ok (500 + (u - 100) * 10)) ∧
      (200 ≤ u →
        InternetManagement.calculateBill ⟨addr, u, .PREMIUM⟩
          = .ok (800 + (u - 200) * 10))) := by
  constructor
  · intro plan hplan
    cases plan with
    | NO_SERVICE =>
        exact ⟨_, rfl, fun addr u u' _ _ => ⟨0, 0, rfl, rfl, le_refl _, le_refl _, fun _ => rfl⟩⟩
    | STANDARD =>
        refine ⟨_, rfl, fun addr u u' _ huu => ⟨_, _, internet_bill_standard addr u,
          internet_bill_standard addr u', ?_⟩⟩
        exact overage_bill_props huu
    | PREMIUM =>
        refine ⟨_, rfl, fun addr u u' _ huu => ⟨_, _, internet_bill_premium addr u,
          internet_bill_premium addr u', ?_⟩⟩
        exact overage_bill_props huu
    | BUSINESS_FIBER =>
        exact ⟨_, rfl, fun addr u u' _ _ =>
          ⟨1500, 1500, rfl, rfl, le_refl _, le_refl _, fun _ => rfl⟩⟩
    | UNRECOGNIZED => exact absurd rfl hplan
  · intro addr u
    constructor
    · intro h
      rw [internet_bill_standard]
      rcases h.lt_or_eq with hlt | heq
      · rw [if_pos hlt]
      · rw [← heq]
        norm_num
    · intro h
      rw [internet_bill_premium]
      rcases h.lt_or_eq with hlt | heq
      · rw [if_pos hlt]
      · rw [← heq]
        norm_num

/-- Witness of C27: PREMIUM at usages 150 and 250. -/
theorem internet_bill_base_cost_and_cap_witness :
    ∃ bill bill',
      InternetManagement.calculateBill ⟨exampleAddress, 150, .PREMIUM⟩ = .ok bill ∧
      InternetManagement.calculateBill ⟨exampleAddress, 250, .PREMIUM⟩ = .ok bill' ∧
      bill ≤ bill' := by
  obtain ⟨_, _, h⟩ := internet_bill_base_cost_and_cap.1 .PREMIUM (by decide)
  obtain ⟨bill, bill', h1, h2, h3, _, _⟩ := h exampleAddress 150 250 (by norm_num) (by norm_num)
  exact ⟨bill, bill', h1, h2, h3⟩

/-! ### Building upgrades -/

theorem building_upgrade_of_ge (self : Building) (h : self.level ≥ 5) :
    self.upgrade = ⟨self, some .runtime_error⟩ := by
  simp [Building.upgrade, h]

theorem building_upgrade_of_lt (self : Building) (h : self.level < 5) :
    self.upgrade =
      ⟨{ self with
          level := self.level + 1
          energyConsumption := self.energyConsumption - 5
          pollutionOutput := self.pollutionOutput - 3 }, none⟩ := by
  have h' : ¬ self.level ≥ 5 := not_le.mpr h
  simp [Building.upgrade, h']

theorem anyBuilding_upgrade_of_ge (b : AnyBuilding) (h : b.base.level ≥ 5) :
    b.upgrade = ⟨b, some .runtime_error⟩ := by
  cases b with
  | residential x =>
      simp [AnyBuilding.upgrade, ResidentialBuilding.upgrade,
        building_upgrade_of_ge x.toBuilding h]
  | commercial x =>
      simp [AnyBuilding.upgrade, CommercialBuilding.upgrade,
        building_upgrade_of_ge x.toBuilding h]
  | green x =>
      simp [AnyBuilding.upgrade, GreenBuilding.upgrade, building_upgrade_of_ge x.toBuilding h]
  | industrial x =>
      simp [AnyBuilding.upgrade, IndustrialBuilding.upgrade,
        building_upgrade_of_ge x.toBuilding h]
  | recreational x =>
      simp [AnyBuilding.upgrade, RecreationalBuilding.upgrade,
        building_upgrade_of_ge x.toBuilding h]
  | educational x =>
      simp [AnyBuilding.upgrade, EducationalBuilding.upgrade,
        building_upgrade_of_ge x.toBuilding h]

theorem anyBuilding_upgrade_of_lt (b : AnyBuilding) (h : b.base.level < 5) :
    b.upgrade.thrown = none ∧
      b.upgrade.after.base.level = b.base.level + 1 ∧
      b.upgrade.after.base.energyConsumption = b.base.energyConsumption - 5 := by
  cases b with
  | residential x =>
      simp [AnyBuilding.upgrade, AnyBuilding.base, ResidentialBuilding.upgrade,
        building_upgrade_of_lt x.toBuilding h]
  | commercial x =>
      simp [AnyBuilding.upgrade, AnyBuilding.base, CommercialBuilding.upgrade,
        building_upgrade_of_lt x.toBuilding h]
  | green x =>
      simp [AnyBuilding.upgrade, AnyBuilding.base, GreenBuilding.upgrade,
        building_upgrade_of_lt x.toBuilding h]
  | industrial x =>
      simp [AnyBuilding.upgrade, AnyBuilding.base, IndustrialBuilding.upgrade,
        building_upgrade_of_lt x.toBuilding h]
  | recreational x =>
      simp [AnyBuilding.upgrade, AnyBuilding.base, RecreationalBuilding.upgrade,
        building_upgrade_of_lt x.toBuilding h]
  | educational x =>
      simp [AnyBuilding.upgrade, AnyBuilding.base, EducationalBuilding.upgrade,
        building_upgrade_of_lt x.toBuilding h]

theorem anyBuilding_simulateDay_level (b : AnyBuilding) :
    b.simulateDay.base.level = b.base.level := by
  cases b <;> rfl

theorem freshlyConstructed_level (b : AnyBuilding) (h : FreshlyConstructed b) :
    b.base.level = 1 := by
  rcases h with ⟨n, r, rfl⟩ | ⟨n, rfl⟩ | ⟨n, rfl⟩ | ⟨n, rfl⟩ | ⟨n, rfl⟩ | ⟨n, r, rfl⟩ <;> rfl

theorem building_call_level (b : AnyBuilding) (m : BuildingCall)
    (h : 1 ≤ b.base.level ∧ b.base.level ≤ 5) :
    1 ≤ (BuildingCall.call b m).after.base.level ∧
      (BuildingCall.call b m).after.base.level ≤ 5 := by
  cases m with
  | upgrade =>
      simp only [BuildingCall.call]
      by_cases hge : b.base.level ≥ 5
      · rw [anyBuilding_upgrade_of_ge b hge]
        exact h
      · have hlt : b.base.level < 5 := not_le.mp hge
        rw [(anyBuilding_upgrade_of_lt b hlt).2.1]
        omega
  | simulateDay =>
      simp only [BuildingCall.call, anyBuilding_simulateDay_level]
      exact h

/-- C28. For a building of every class, `upgrade()` throws `runtime_error`
exactly when `level >= 5`, and then leaves the building, every field of it,
as it was; otherwise it throws nothing, raises `level` by 1 and lowers
`energyConsumption` by 5. A building as its constructor returns it has level
1, and after any sequence of `upgrade()` and `simulateDay()` calls its level
is between 1 and 5. -/
theorem building_upgrade_capped_at_five :
    (∀ b : AnyBuilding,
      (b.upgrade.thrown = some .runtime_error ↔ b.base.level ≥ 5) ∧
      (b.base.level ≥ 5 → b.upgrade.after = b) ∧
      (b.base.level < 5 →
        b.upgrade.thrown = none ∧
        b.upgrade.after.base.level = b.base.level + 1 ∧
        b.upgrade.after.base.energyConsumption = b.base.energyConsumption - 5)) ∧
    (∀ (b : AnyBuilding) (calls : List BuildingCall), FreshlyConstructed b →
      b.base.level = 1 ∧
      1 ≤ (afterCalls BuildingCall.call b calls).base.level ∧
      (afterCalls BuildingCall.call b calls).base.level ≤ 5) := by
  constructor
  · intro b
    refine ⟨⟨fun hthrown => ?_, fun hge => ?_⟩, fun hge => ?_, anyBuilding_upgrade_of_lt b⟩
    · by_contra hlt
      rw [(anyBuilding_upgrade_of_lt b (not_le.mp hlt)).1] at hthrown
      cases hthrown
    · rw [anyBuilding_upgrade_of_ge b hge]
    · rw [anyBuilding_upgrade_of_ge b hge]
  · intro b calls hb
    have h1 := freshlyConstructed_level b hb
    refine ⟨h1, ?_⟩
    exact afterCalls_invariant BuildingCall.call
      (fun x => 1 ≤ x.base.level ∧ x.base.level ≤ 5) building_call_level calls b
      ⟨h1.ge, h1.le.trans (by norm_num)⟩

/-- Witness of C28: a commercial building at level 5, and an educational
building upgraded six times after its construction. -/
theorem building_upgrade_capped_at_five_witness :
    toppedOutBuilding.upgrade.after = toppedOutBuilding ∧
      (afterCalls BuildingCall.call (.educational (EducationalBuilding.construct "School" 200))
        [.upgrade, .upgrade, .upgrade, .upgrade, .upgrade, .upgrade]).base.level ≤ 5 :=
  ⟨(building_upgrade_capped_at_five.1 toppedOutBuilding).2.1
      (by simp [toppedOutBuilding, AnyBuilding.base]),
   ((building_upgrade_capped_at_five.2
      (.educational (EducationalBuilding.construct "School" 200))
      [.upgrade, .upgrade, .upgrade, .upgrade, .upgrade, .upgrade]
      (Or.inr (Or.inr (Or.inr (Or.inr (Or.inr ⟨"School", 200, rfl⟩)))))).2).2⟩

/-! ### Citizens talking -/

/-- C29, as amended. For every speaker awareness `s` and listener awareness
`o`, with `o'` the listener's awareness after `talkTo`: `o' = o` when
`s <= o`; when `s > o` the listener ends at `o + (s - o) / 10`, or at 1 when
that exceeds 1, so `o' <= s`; `o' >= o` whenever `o <= 1`, while a listener
above 1 with a speaker above them is set to 1; `o' <= 1` whenever `o <= 1`;
when both start in [0, 1] the listener ends in [0, 1] with `o' <= max s o`.
The speaker and the other fields of the listener are as they were. -/
theorem citizen_talkTo_awareness (self other : Citizen) :
    (self.talkTo other).1 = self ∧
    (self.talkTo other).2 = { other with ecoAwareness := (self.talkTo other).2.ecoAwareness } ∧
    (self.ecoAwareness ≤ other.ecoAwareness →
      (self.talkTo other).2.ecoAwareness = other.ecoAwareness) ∧
    (other.ecoAwareness < self.ecoAwareness →
      (self.talkTo other).2.ecoAwareness
        = min 1 (other.ecoAwareness + (self.ecoAwareness - other.ecoAwareness) / 10) ∧
      (self.talkTo other).2.ecoAwareness ≤ self.ecoAwareness) ∧
    (other.ecoAwareness ≤ 1 → other.ecoAwareness ≤ (self.talkTo other).2.ecoAwareness) ∧
    (1 < other.ecoAwareness → other.ecoAwareness < self.ecoAwareness →
      (self.talkTo other).2.ecoAwareness = 1) ∧
    (other.ecoAwareness ≤ 1 → (self.talkTo other).2.ecoAwareness ≤ 1) ∧
    (0 ≤ self.ecoAwareness → self.ecoAwareness ≤ 1 →
      0 ≤ other.ecoAwareness → other.ecoAwareness ≤ 1 →
      0 ≤ (self.talkTo other).2.ecoAwareness ∧ (self.talkTo other).2.ecoAwareness ≤ 1 ∧
      (self.talkTo other).2.ecoAwareness ≤ max self.ecoAwareness other.ecoAwareness) := by
  by_cases h : self.ecoAwareness > other.ecoAwareness
  · have hval : (self.talkTo other).2.ecoAwareness
        = min 1 (other.ecoAwareness + (self.ecoAwareness - other.ecoAwareness) / 10) := by
      simp only [Citizen.talkTo, if_pos h, min_def]
      split_ifs <;> linarith
    have hle : (self.talkTo other).2.ecoAwareness ≤ self.ecoAwareness := by
      rw [hval, min_def]
      split_ifs <;> linarith
    refine ⟨by simp [Citizen.talkTo, h], by simp [Citizen.talkTo, h],
      fun hso => absurd h (not_lt.mpr hso), fun _ => ⟨hval, hle⟩, fun ho => ?_, fun ho _ => ?_,
      fun ho => ?_, fun hs0 hs1 ho0 ho1 => ⟨?_, ?_, le_trans hle (le_max_left _ _)⟩⟩
    · rw [hval, min_def]
      split_ifs <;> linarith
    · rw [hval, min_def]
      split_ifs <;> linarith
    · rw [hval]
      exact min_le_left _ _
    · rw [hval, min_def]
      split_ifs <;> linarith
    · rw [hval]
      exact min_le_left _ _
  · have hval : self.talkTo other = (self, other) := by
      simp [Citizen.talkTo, h]
    have hso : self.ecoAwareness ≤ other.ecoAwareness := not_lt.mp h
    rw [hval]
    exact ⟨rfl, rfl, fun _ => rfl, fun hlt => absurd hlt h, fun _ => le_refl _,
      fun _ hlt => absurd hlt h, fun ho => ho,
      fun _ _ ho0 ho1 => ⟨ho0, ho1, le_max_right _ _⟩⟩

/-- Witness of C29 as amended: a speaker at 9/10 and a listener at 1/2. -/
theorem citizen_talkTo_awareness_witness :
    ((citizenWith (9 / 10)).talkTo (citizenWith (1 / 2))).2.ecoAwareness
        = min 1 (1 / 2 + (9 / 10 - 1 / 2) / 10) ∧
      ((citizenWith (9 / 10)).talkTo (citizenWith (1 / 2))).2.ecoAwareness ≤ 9 / 10 :=
  (citizen_talkTo_awareness (citizenWith (9 / 10)) (citizenWith (1 / 2))).2.2.2.1
    (by norm_num [citizenWith])

/-- C29 as stated fails twice. A listener at 3/2 spoken to by a speaker at 2
ends at 1, below where they started. A speaker at 1/5 and a listener at 4/5,
both in [0, 1], leave the listener at 4/5, above the speaker. -/
theorem citizen_talkTo_lowers_or_exceeds_speaker :
    ((citizenWith 2).talkTo (citizenWith (3 / 2))).2.ecoAwareness = 1 ∧
      ¬ (citizenWith (3 / 2)).ecoAwareness
          ≤ ((citizenWith 2).talkTo (citizenWith (3 / 2))).2.ecoAwareness ∧
      ((citizenWith (1 / 5)).talkTo (citizenWith (4 / 5))).2.ecoAwareness = 4 / 5 ∧
      ¬ ((citizenWith (1 / 5)).talkTo (citizenWith (4 / 5))).2.ecoAwareness
          ≤ (citizenWith (1 / 5)).ecoAwareness := by
  have h1 : ((citizenWith 2).talkTo (citizenWith (3 / 2))).2.ecoAwareness = 1 := by
    norm_num [Citizen.talkTo, citizenWith]
  have h2 : ((citizenWith (1 / 5)).talkTo (citizenWith (4 / 5))).2.ecoAwareness = 4 / 5 := by
    norm_num [Citizen.talkTo, citizenWith]
  refine ⟨h1, ?_, h2, ?_⟩
  · rw [h1]
    norm_num [citizenWith]
  · rw [h2]
    norm_num [citizenWith]

/-! ### Rounding to the nearest double -/

theorem ulp_pos (x : ℚ) : 0 < Double.ulp x := by
  unfold Double.ulp
  positivity

theorem roundHalfEven_nonneg {m : ℚ} (h : 0 ≤ m) : 0 ≤ Double.roundHalfEven m := by
  have hf : 0 ≤ ⌊m⌋ := Int.floor_nonneg.mpr h
  unfold Double.roundHalfEven
  split_ifs <;> omega

theorem roundHalfEven_intCast (n : ℤ) : Double.roundHalfEven (n : ℚ) = n := by
  unfold Double.roundHalfEven
  rw [Int.floor_intCast, sub_self]
  norm_num

/-- A sum that is at least 0 rounds to a double that is at least 0. -/
theorem round_of_nonneg {x : ℚ} (h : 0 ≤ x) :
    Double.round x = .posInf ∨ ∃ r : ℚ, 0 ≤ r ∧ Double.round x = .finite r := by
  have hu := ulp_pos x
  have hm : 0 ≤ x / Double.ulp x := div_nonneg h hu.le
  have hn : (0 : ℚ) ≤ (Double.roundHalfEven (x / Double.ulp x) : ℚ) :=
    Int.cast_nonneg.mpr (roundHalfEven_nonneg hm)
  have hr : (0 : ℚ) ≤ (Double.roundHalfEven (x / Double.ulp x) : ℚ) * Double.ulp x :=
    mul_nonneg hn hu.le
  unfold Double.round
  simp only
  split_ifs with h1 h2
  · exact Or.inl rfl
  · exfalso
    have : (0 : ℚ) < (2 : ℚ) ^ (1024 : ℤ) := by positivity
    linarith
  · exact Or.inr ⟨_, hr, rfl⟩

theorem exponent_eq {x : ℚ} (e : ℤ) (h1 : (2 : ℚ) ^ e ≤ |x|) (h2 : |x| < (2 : ℚ) ^ (e + 1))
    (hmin : -1022 ≤ e) : Double.exponent x = e := by
  have hpos : 0 < |x| := lt_of_lt_of_le (by positivity) h1
  have hb : 1 < 2 := by norm_num
  have hle : e ≤ Int.log 2 |x| :=
    (@Int.zpow_le_iff_le_log ℚ _ _ 2 hb e |x| hpos).mp (by simpa using h1)
  have hlt : Int.log 2 |x| < e + 1 :=
    (@Int.lt_zpow_iff_log_lt ℚ _ _ 2 hb (e + 1) |x| hpos).mp (by simpa using h2)
  unfold Double.exponent
  rw [max_eq_left (by omega)]
  omega

/-- A value with at most 53 significant bits in a binade of the normal range
is a double: rounding leaves it as it is. -/
theorem round_of_significand {x : ℚ} (e n : ℤ) (h1 : (2 : ℚ) ^ e ≤ |x|)
    (h2 : |x| < (2 : ℚ) ^ (e + 1)) (hmin : -1022 ≤ e) (hmax : e ≤ 1023)
    (hx : x = (n : ℚ) * (2 : ℚ) ^ (e - 52)) : Double.round x = .finite x := by
  have hulp : Double.ulp x = (2 : ℚ) ^ (e - 52) := by
    unfold Double.ulp
    rw [exponent_eq e h1 h2 hmin]
  have hpow : (0 : ℚ) < (2 : ℚ) ^ (e - 52) := by positivity
  have hdiv : x / (2 : ℚ) ^ (e - 52) = (n : ℚ) := by
    rw [hx]
    field_simp
  have hbig : |x| < (2 : ℚ) ^ (1024 : ℤ) :=
    lt_of_lt_of_le h2 (zpow_le_zpow_right₀ (by norm_num) (by omega))
  have hlo := neg_abs_le x
  have hhi := le_abs_self x
  unfold Double.round
  simp only [hulp, hdiv, roundHalfEven_intCast, ← hx]
  rw [if_neg (by linarith), if_neg (by linarith)]

theorem round_zero : Double.round 0 = .finite 0 := by
  have h : Double.roundHalfEven (0 / Double.ulp 0) = 0 := by
    rw [zero_div]
    exact_mod_cast roundHalfEven_intCast 0
  have hpos : (0 : ℚ) < (2 : ℚ) ^ (1024 : ℤ) := by positivity
  unfold Double.round
  simp only [h, Int.cast_zero, zero_mul]
  rw [if_neg (by linarith), if_neg (by linarith)]

theorem lt_two_pow_1024 {r : ℚ} (k : ℤ) (hk : k ≤ 1024) (h : r < (2 : ℚ) ^ k) :
    r < (2 : ℚ) ^ (1024 : ℤ) :=
  lt_of_lt_of_le h (zpow_le_zpow_right₀ (by norm_num) hk)

/-- The value `2 ^ 53` is a double. -/
theorem isDouble_two_pow_53 : Double.IsDouble (.finite 9007199254740992) :=
  round_of_significand 53 4503599627370496 (by norm_num [abs_of_pos])
    (by norm_num [abs_of_pos]) (by norm_num) (by norm_num) (by norm_num)

/-- The value `2 ^ 53 + 2` is a double. -/
theorem isDouble_two_pow_53_add_two : Double.IsDouble (.finite 9007199254740994) :=
  round_of_significand 53 4503599627370497 (by norm_num [abs_of_pos])
    (by norm_num [abs_of_pos]) (by norm_num) (by norm_num) (by norm_num)

theorem isDouble_one : Double.IsDouble (.finite 1) :=
  round_of_significand 0 4503599627370496 (by norm_num) (by norm_num) (by norm_num)
    (by norm_num) (by norm_num)

theorem isDouble_two : Double.IsDouble (.finite 2) :=
  round_of_significand 1 4503599627370496 (by norm_num) (by norm_num) (by norm_num)
    (by norm_num) (by norm_num)

/-- The sum `2 ^ 53 + 1` lies halfway between the doubles `2 ^ 53` and
`2 ^ 53 + 2` and rounds to the one with the even significand, `2 ^ 53`. -/
theorem round_two_pow_53_add_one :
    Double.round 9007199254740993 = .finite 9007199254740992 := by
  have he : Double.exponent 9007199254740993 = 53 :=
    exponent_eq 53 (by norm_num [abs_of_pos]) (by norm_num [abs_of_pos]) (by norm_num)
  have hulp : Double.ulp 9007199254740993 = 2 := by
    unfold Double.ulp
    rw [he]
    norm_num
  have hfloor : ⌊(9007199254740993 : ℚ) / 2⌋ = 4503599627370496 := by
    rw [Int.floor_eq_iff]
    norm_num
  have hhalf : Double.roundHalfEven (9007199254740993 / 2) = 4503599627370496 := by
    unfold Double.roundHalfEven
    rw [hfloor]
    norm_num
  have hsmall : ((4503599627370496 : ℤ) : ℚ) * 2 < (2 : ℚ) ^ (1024 : ℤ) :=
    lt_two_pow_1024 54 (by norm_num) (by norm_num)
  have hpos : (0 : ℚ) < (2 : ℚ) ^ (1024 : ℤ) := by positivity
  unfold Double.round
  simp only [hulp, hhalf]
  rw [if_neg (by linarith), if_neg (by norm_num)]
  norm_num

/-! ### Signs of sums of doubles -/

/-- A sum of two doubles neither of which is negative is not negative. -/
theorem add_not_negative {a b : Double} (ha : ¬ Double.lt a Double.zero)
    (hb : ¬ Double.lt b Double.zero) : ¬ Double.lt (Double.add a b) Double.zero := by
  cases a with
  | finite x =>
      cases b with
      | finite y =>
          have hx : 0 ≤ x := not_lt.mp ha
          have hy : 0 ≤ y := not_lt.mp hb
          rcases round_of_nonneg (add_nonneg hx hy) with h | ⟨r, hr, h⟩
          · simp [Double.add, h, Double.lt, Double.zero]
          · simp [Double.add, h, Double.lt, Double.zero, hr]
      | posInf => simp [Double.add, Double.lt, Double.zero]
      | negInf => exact absurd trivial hb
      | nan => simp [Double.add, Double.lt, Double.zero]
  | posInf => cases b <;> simp_all [Double.add, Double.lt, Double.zero]
  | negInf => exact absurd trivial ha
  | nan => cases b <;> simp [Double.add, Double.lt, Double.zero]

/-- A sum of two doubles that are at least 0 is at least 0. -/
theorem add_at_least_zero {a b : Double} (ha : Double.le Double.zero a)
    (hb : Double.le Double.zero b) : Double.le Double.zero (Double.add a b) := by
  cases a with
  | finite x =>
      cases b with
      | finite y =>
          have hx : 0 ≤ x := ha
          have hy : 0 ≤ y := hb
          rcases round_of_nonneg (add_nonneg hx hy) with h | ⟨r, hr, h⟩
          · simp [Double.add, h, Double.le, Double.zero]
          · simp [Double.add, h, Double.le, Double.zero, hr]
      | posInf => simp [Double.add, Double.le, Double.zero]
      | negInf => exact absurd hb (fun h => h)
      | nan => exact absurd hb (fun h => h)
  | posInf => cases b <;> simp_all [Double.add, Double.le, Double.zero]
  | negInf => exact absurd ha (fun h => h)
  | nan => exact absurd ha (fun h => h)

theorem at_least_zero_of_not_negative {a : Double} (h : ¬ Double.lt a Double.zero)
    (hnan : a ≠ .nan) : Double.le Double.zero a := by
  cases a with
  | finite x => exact not_lt.mp h
  | posInf => trivial
  | negInf => exact absurd trivial h
  | nan => exact absurd rfl hnan

theorem not_negative_of_at_least_zero {a : Double} (h : Double.le Double.zero a) :
    ¬ Double.lt a Double.zero := by
  cases a with
  | finite x => exact not_lt.mpr h
  | posInf => exact fun h => h
  | negInf => exact absurd h (fun h => h)
  | nan => exact fun h => h

/-! ### Accumulation on doubles -/

theorem callEach_nil {σ α : Type} (f : σ → α → Call σ) (self : σ) :
    callEach f self [] = ⟨self, none⟩ := rfl

theorem callEach_cons_of_ok {σ α : Type} (f : σ → α → Call σ) (self next : σ) (a : α)
    (rest : List α) (h : f self a = ⟨next, none⟩) :
    callEach f self (a :: rest) = callEach f next rest := by
  simp [callEach, List.foldl, Call.andThen, h]

/-- A sequence of accepted amounts, passed one by one to a mutator that puts
each into one accumulator, throws nothing and folds the amounts into it. -/
theorem callEach_folds {σ α : Type} (f : σ → α → Call σ) (bump : σ → α → σ) (Q : α → Prop)
    (hf : ∀ s a, Q a → f s a = ⟨bump s a, none⟩) :
    ∀ (amounts : List α) (self : σ), (∀ a ∈ amounts, Q a) →
      callEach f self amounts = ⟨amounts.foldl bump self, none⟩
  | [], self, _ => callEach_nil f self
  | a :: rest, self, h => by
      rw [callEach_cons_of_ok f self (bump self a) a rest
          (hf self a (h a (List.mem_cons_self _ _))),
        callEach_folds f bump Q hf rest (bump self a)
          (fun x hx => h x (List.mem_cons_of_mem _ hx)),
        List.foldl_cons]

theorem electricity_fold_usage (amounts : List Double) :
    ∀ self : OnDoubles.ElectricityManagement,
      amounts.foldl
          (fun s a => { s with totalConsumption := Double.add s.totalConsumption a }) self
        = { self with totalConsumption := Double.sumFrom self.totalConsumption amounts } := by
  induction amounts with
  | nil => intro self; rfl
  | cons a rest ih =>
      intro self
      rw [List.foldl_cons, ih]
      rfl

theorem electricity_fold_generation (amounts : List Double) :
    ∀ self : OnDoubles.ElectricityManagement,
      amounts.foldl
          (fun s a => { s with localGeneration := Double.add s.localGeneration a }) self
        = { self with localGeneration := Double.sumFrom self.localGeneration amounts } := by
  induction amounts with
  | nil => intro self; rfl
  | cons a rest ih =>
      intro self
      rw [List.foldl_cons, ih]
      rfl

theorem gas_fold_usage (amounts : List Double) :
    ∀ self : OnDoubles.GasManagement,
      amounts.foldl
          (fun s a => { s with totalConsumption := Double.add s.totalConsumption a }) self
        = { self with totalConsumption := Double.sumFrom self.totalConsumption amounts } := by
  induction amounts with
  | nil => intro self; rfl
  | cons a rest ih =>
      intro self
      rw [List.foldl_cons, ih]
      rfl

theorem water_fold_consumption (amounts : List Double) :
    ∀ self : OnDoubles.WaterManagement,
      amounts.foldl
          (fun s a =>
            { s with consumptionCubicMeters := Double.add s.consumptionCubicMeters a }) self
        = { self with
            consumptionCubicMeters := Double.sumFrom self.consumptionCubicMeters amounts } := by
  induction amounts with
  | nil => intro self; rfl
  | cons a rest ih =>
      intro self
      rw [List.foldl_cons, ih]
      rfl

theorem internet_fold_usage (amounts : List Double) :
    ∀ self : OnDoubles.InternetManagement,
      amounts.foldl (fun s a => { s with dataUsedGB := Double.add s.dataUsedGB a }) self
        = { self with dataUsedGB := Double.sumFrom self.dataUsedGB amounts } := by
  induction amounts with
  | nil => intro self; rfl
  | cons a rest ih =>
      intro self
      rw [List.foldl_cons, ih]
      rfl

theorem electricity_addUsage_each (self : OnDoubles.ElectricityManagement)
    (amounts : List Double) (h : ∀ a ∈ amounts, ¬ Double.lt a Double.zero) :
    callEach OnDoubles.ElectricityManagement.addUsage self amounts
      = ⟨{ self with totalConsumption := Double.sumFrom self.totalConsumption amounts },
          none⟩ := by
  rw [callEach_folds OnDoubles.ElectricityManagement.addUsage
    (fun s a => { s with totalConsumption := Double.add s.totalConsumption a })
    (fun a => ¬ Double.lt a Double.zero)
    (fun s a ha => by simp [OnDoubles.ElectricityManagement.addUsage, ha]) amounts self h,
    electricity_fold_usage]

theorem electricity_addLocalGeneration_each (self : OnDoubles.ElectricityManagement)
    (amounts : List Double) (h : ∀ a ∈ amounts, ¬ Double.lt a Double.zero) :
    callEach OnDoubles.ElectricityManagement.addLocalGeneration self amounts
      = ⟨{ self with localGeneration := Double.sumFrom self.localGeneration amounts },
          none⟩ := by
  rw [callEach_folds OnDoubles.ElectricityManagement.addLocalGeneration
    (fun s a => { s with localGeneration := Double.add s.localGeneration a })
    (fun a => ¬ Double.lt a Double.zero)
    (fun s a ha => by simp [OnDoubles.ElectricityManagement.addLocalGeneration, ha])
    amounts self h,
    electricity_fold_generation]

theorem gas_addUsage_each (self : OnDoubles.GasManagement) (amounts : List Double)
    (h : ∀ a ∈ amounts, ¬ Double.lt a Double.zero) :
    callEach OnDoubles.GasManagement.addUsage self amounts
      = ⟨{ self with totalConsumption := Double.sumFrom self.totalConsumption amounts },
          none⟩ := by
  rw [callEach_folds OnDoubles.GasManagement.addUsage
    (fun s a => { s with totalConsumption := Double.add s.totalConsumption a })
    (fun a => ¬ Double.lt a Double.zero)
    (fun s a ha => by simp [OnDoubles.GasManagement.addUsage, ha]) amounts self h,
    gas_fold_usage]

theorem water_addConsumption_each (self : OnDoubles.WaterManagement) (amounts : List Double)
    (h : ∀ a ∈ amounts, ¬ Double.lt a Double.zero) :
    callEach OnDoubles.WaterManagement.addConsumption self amounts
      = ⟨{ self with
            consumptionCubicMeters := Double.sumFrom self.consumptionCubicMeters amounts },
          none⟩ := by
  rw [callEach_folds OnDoubles.WaterManagement.addConsumption
    (fun s a => { s with consumptionCubicMeters := Double.add s.consumptionCubicMeters a })
    (fun a => ¬ Double.lt a Double.zero)
    (fun s a ha => by simp [OnDoubles.WaterManagement.addConsumption, ha]) amounts self h,
    water_fold_consumption]

theorem internet_addDataUsage_each (self : OnDoubles.InternetManagement)
    (amounts : List Double) (h : ∀ a ∈ amounts, ¬ Double.lt a Double.zero) :
    callEach OnDoubles.InternetManagement.addDataUsage self amounts
      = ⟨{ self with dataUsedGB := Double.sumFrom self.dataUsedGB amounts }, none⟩ := by
  rw [callEach_folds OnDoubles.InternetManagement.addDataUsage
    (fun s a => { s with dataUsedGB := Double.add s.dataUsedGB a })
    (fun a => ¬ Double.lt a Double.zero)
    (fun s a ha => by simp [OnDoubles.InternetManagement.addDataUsage, ha]) amounts self h,
    internet_fold_usage]

/-- When no addition rounds, the accumulated sum is the exact sum. -/
theorem sumFrom_of_exact :
    ∀ (amounts : List ℚ) (c0 : ℚ), ExactPartialSums c0 amounts →
      Double.sumFrom (.finite c0) (amounts.map Double.finite) = .finite (c0 + amounts.sum)
  | [], c0, _ => by simp [Double.sumFrom]
  | a :: rest, c0, h => by
      have ih := sumFrom_of_exact rest (c0 + a) h.2
      simp only [Double.sumFrom, List.map_cons, List.foldl_cons, Double.add, h.1] at ih ⊢
      rw [ih, List.sum_cons, add_assoc]

theorem electricity_construct_double {ad : Address} {strategy : ElectricitySupplyStrategy}
    {c0 g0 : Double} {acct : OnDoubles.ElectricityManagement}
    (h : OnDoubles.ElectricityManagement.construct ad strategy c0 g0 = .ok acct) :
    acct = ⟨ad, c0, g0, strategy⟩ ∧ ¬ Double.lt c0 Double.zero ∧ ¬ Double.lt g0 Double.zero := by
  unfold OnDoubles.ElectricityManagement.construct at h
  split_ifs at h with hneg
  injection h with h
  push_neg at hneg
  exact ⟨h.symm, hneg.1, hneg.2⟩

theorem gas_construct_double {ad : Address} {c0 : Double} {acct : OnDoubles.GasManagement}
    (h : OnDoubles.GasManagement.construct ad c0 = .ok acct) :
    acct = ⟨ad, c0⟩ ∧ ¬ Double.lt c0 Double.zero := by
  unfold OnDoubles.GasManagement.construct at h
  split_ifs at h with hneg
  injection h with h
  exact ⟨h.symm, hneg⟩

theorem water_construct_double {store : PlanDetailsStore} {ad : Address}
    {plan : WaterTariffPlan} {c0 : Double} {acct : OnDoubles.WaterManagement}
    (h : OnDoubles.WaterManagement.construct store ad plan c0 = .ok acct) :
    acct = ⟨ad, c0, plan⟩ ∧ ¬ Double.lt c0 Double.zero := by
  unfold OnDoubles.WaterManagement.construct at h
  split_ifs at h with hneg
  cases hs : store plan with
  | none => simp [hs] at h
  | some info =>
      simp only [hs] at h
      injection h with h
      exact ⟨h.symm, hneg⟩

theorem internet_construct_double {ad : Address} {plan : InternetPlan} {u0 : Double}
    {acct : OnDoubles.InternetManagement}
    (h : OnDoubles.InternetManagement.construct ad plan u0 = .ok acct) :
    acct = ⟨ad, u0, plan⟩ ∧ ¬ Double.lt u0 Double.zero := by
  unfold OnDoubles.InternetManagement.construct at h
  split_ifs at h with hneg
  injection h with h
  exact ⟨h.symm, hneg⟩

/-- C13, as amended. For every account constructed with initial consumption
`c0` and every sequence of amounts none of which is negative, adding them in
order with `addUsage` (`addConsumption` for water, `addDataUsage` for
internet) throws nothing and leaves the consumption getter at the sum
`((c0 + a_1) + a_2) + ... + a_N` taken in that order on doubles, each addition
rounded to the nearest double; `addLocalGeneration` accumulates the generation
the same way, and neither of the two touches the other accumulator. When every
partial sum is a double, so that no addition rounds, the getter returns the
exact sum `c0 + a_1 + ... + a_N`, the same for every such split of one total. -/
theorem accumulation_is_rounded_sum :
    (∀ (ad : Address) (strategy : ElectricitySupplyStrategy) (c0 g0 : Double)
        (acct : OnDoubles.ElectricityManagement) (amounts : List Double),
      OnDoubles.ElectricityManagement.construct ad strategy c0 g0 = .ok acct →
      (∀ a ∈ amounts, ¬ Double.lt a Double.zero) →
      ((callEach OnDoubles.ElectricityManagement.addUsage acct amounts).thrown = none ∧
        (callEach OnDoubles.ElectricityManagement.addUsage acct amounts).after.getTotalConsumption
          = Double.sumFrom c0 amounts ∧
        (callEach OnDoubles.ElectricityManagement.addUsage acct amounts).after.getLocalGeneration
          = g0) ∧
      ((callEach OnDoubles.ElectricityManagement.addLocalGeneration acct amounts).thrown
          = none ∧
        (callEach OnDoubles.ElectricityManagement.addLocalGeneration acct
          amounts).after.getLocalGeneration = Double.sumFrom g0 amounts ∧
        (callEach OnDoubles.ElectricityManagement.addLocalGeneration acct
          amounts).after.getTotalConsumption = c0)) ∧
    (∀ (ad : Address) (c0 : Double) (acct : OnDoubles.GasManagement) (amounts : List Double),
      OnDoubles.GasManagement.construct ad c0 = .ok acct →
      (∀ a ∈ amounts, ¬ Double.lt a Double.zero) →
      (callEach OnDoubles.GasManagement.addUsage acct amounts).thrown = none ∧
      (callEach OnDoubles.GasManagement.addUsage acct amounts).after.getTotalConsumption
        = Double.sumFrom c0 amounts) ∧
    (∀ (store : PlanDetailsStore) (ad : Address) (plan : WaterTariffPlan) (c0 : Double)
        (acct : OnDoubles.WaterManagement) (amounts : List Double),
      OnDoubles.WaterManagement.construct store ad plan c0 = .ok acct →
      (∀ a ∈ amounts, ¬ Double.lt a Double.zero) →
      (callEach OnDoubles.WaterManagement.addConsumption acct amounts).thrown = none ∧
      (callEach OnDoubles.WaterManagement.addConsumption acct
        amounts).after.getConsumptionCubicMeters = Double.sumFrom c0 amounts) ∧
    (∀ (ad : Address) (plan : InternetPlan) (u0 : Double)
        (acct : OnDoubles.InternetManagement) (amounts : List Double),
      OnDoubles.InternetManagement.construct ad plan u0 = .ok acct →
      (∀ a ∈ amounts, ¬ Double.lt a Double.zero) →
      (callEach OnDoubles.InternetManagement.addDataUsage acct amounts).thrown = none ∧
      (callEach OnDoubles.InternetManagement.addDataUsage acct amounts).after.getDataUsedGB
        = Double.sumFrom u0 amounts) ∧
    (∀ (c0 : ℚ) (amounts : List ℚ), ExactPartialSums c0 amounts →
      Double.sumFrom (.finite c0) (amounts.map Double.finite)
        = .finite (c0 + amounts.sum)) ∧
    (∀ (c0 : ℚ) (amounts amounts' : List ℚ),
      ExactPartialSums c0 amounts → ExactPartialSums c0 amounts' →
      amounts.sum = amounts'.sum →
      Double.sumFrom (.finite c0) (amounts.map Double.finite)
        = Double.sumFrom (.finite c0) (amounts'.map Double.finite)) := by
  refine ⟨?_, ?_, ?_, ?_, fun c0 amounts h => sumFrom_of_exact amounts c0 h, ?_⟩
  · intro ad strategy c0 g0 acct amounts hc h
    obtain ⟨rfl, -, -⟩ := electricity_construct_double hc
    rw [electricity_addUsage_each _ amounts h, electricity_addLocalGeneration_each _ amounts h]
    exact ⟨⟨rfl, rfl, rfl⟩, rfl, rfl, rfl⟩
  · intro ad c0 acct amounts hc h
    obtain ⟨rfl, -⟩ := gas_construct_double hc
    rw [gas_addUsage_each _ amounts h]
    exact ⟨rfl, rfl⟩
  · intro store ad plan c0 acct amounts hc h
    obtain ⟨rfl, -⟩ := water_construct_double hc
    rw [water_addConsumption_each _ amounts h]
    exact ⟨rfl, rfl⟩
  · intro ad plan u0 acct amounts hc h
    obtain ⟨rfl, -⟩ := internet_construct_double hc
    rw [internet_addDataUsage_each _ amounts h]
    exact ⟨rfl, rfl⟩
  · intro c0 amounts amounts' h h' hs
    rw [sumFrom_of_exact amounts c0 h, sumFrom_of_exact amounts' c0 h', hs]

/-- Witness of C13 as amended: a gas account constructed at 100, then
`addUsage` of 1, 2 and 3; the partial sums 101, 103 and 106 are doubles. -/
theorem accumulation_is_rounded_sum_witness :
    ExactPartialSums 100 [1, 2, 3] ∧
      (callEach OnDoubles.GasManagement.addUsage ⟨exampleAddress, .finite 100⟩
        [.finite 1, .finite 2, .finite 3]).after.getTotalConsumption = .finite 106 := by
  have h101 : Double.round 101 = .finite 101 :=
    round_of_significand 6 7107243161944064 (by norm_num [abs_of_pos])
      (by norm_num [abs_of_pos]) (by norm_num) (by norm_num) (by norm_num)
  have h103 : Double.round 103 = .finite 103 :=
    round_of_significand 6 7247980650299392 (by norm_num [abs_of_pos])
      (by norm_num [abs_of_pos]) (by norm_num) (by norm_num) (by norm_num)
  have h106 : Double.round 106 = .finite 106 :=
    round_of_significand 6 7459086882832384 (by norm_num [abs_of_pos])
      (by norm_num [abs_of_pos]) (by norm_num) (by norm_num) (by norm_num)
  have hexact : ExactPartialSums 100 [1, 2, 3] := by
    norm_num [ExactPartialSums, h101, h103, h106]
  have hsum := accumulation_is_rounded_sum.2.2.2.2.1 100 [1, 2, 3] hexact
  have hget := (accumulation_is_rounded_sum.2.1 exampleAddress (.finite 100)
    ⟨exampleAddress, .finite 100⟩ [.finite 1, .finite 2, .finite 3]
    (by norm_num [OnDoubles.GasManagement.construct, Double.lt, Double.zero])
    (by norm_num [Double.lt, Double.zero])).2
  simp only [List.map] at hsum
  refine ⟨hexact, ?_⟩
  rw [hget, show (106 : ℚ) = 100 + ([1, 2, 3] : List ℚ).sum by norm_num]
  exact hsum

theorem add_two_pow_53_one :
    Double.add (.finite 9007199254740992) (.finite 1) = .finite 9007199254740992 := by
  have e : (9007199254740992 : ℚ) + 1 = 9007199254740993 := by norm_num
  simp only [Double.add, e]
  exact round_two_pow_53_add_one

theorem add_two_pow_53_two :
    Double.add (.finite 9007199254740992) (.finite 2) = .finite 9007199254740994 := by
  have e : (9007199254740992 : ℚ) + 2 = 9007199254740994 := by norm_num
  simp only [Double.add, e]
  exact isDouble_two_pow_53_add_two


theorem sumFrom_nil (c : Double) : Double.sumFrom c [] = c := rfl

theorem sumFrom_cons (c a : Double) (rest : List Double) :
    Double.sumFrom c (a :: rest) = Double.sumFrom (Double.add c a) rest := rfl

theorem gas_total_after_each (self : OnDoubles.GasManagement) (amounts : List Double)
    (h : ∀ a ∈ amounts, ¬ Double.lt a Double.zero) :
    (callEach OnDoubles.GasManagement.addUsage self amounts).after.getTotalConsumption
      = Double.sumFrom self.totalConsumption amounts := by
  rw [gas_addUsage_each self amounts h]
  rfl

/-- C13 as stated fails. The values `2 ^ 53`, 1 and 2 are doubles. A gas
account constructed at `2 ^ 53` still reports `2 ^ 53` after `addUsage(1)`,
not `2 ^ 53 + 1`; after `addUsage(1)` twice it reports `2 ^ 53`, and after one
`addUsage(2)` it reports `2 ^ 53 + 2`: two splits of the same total, two
different readings. -/
theorem accumulation_rounds_above_two_pow_53 :
    Double.IsDouble (.finite 9007199254740992) ∧ Double.IsDouble (.finite 1) ∧
      Double.IsDouble (.finite 2) ∧
      OnDoubles.GasManagement.construct exampleAddress (.finite 9007199254740992)
        = .ok ⟨exampleAddress, .finite 9007199254740992⟩ ∧
      (callEach OnDoubles.GasManagement.addUsage ⟨exampleAddress, .finite 9007199254740992⟩
        [.finite 1]).after.getTotalConsumption = .finite 9007199254740992 ∧
      (callEach OnDoubles.GasManagement.addUsage ⟨exampleAddress, .finite 9007199254740992⟩
        [.finite 1]).after.getTotalConsumption ≠ .finite (9007199254740992 + 1) ∧
      (callEach OnDoubles.GasManagement.addUsage ⟨exampleAddress, .finite 9007199254740992⟩
        [.finite 1, .finite 1]).after.getTotalConsumption = .finite 9007199254740992 ∧
      (callEach OnDoubles.GasManagement.addUsage ⟨exampleAddress, .finite 9007199254740992⟩
        [.finite 2]).after.getTotalConsumption = .finite 9007199254740994 ∧
      ([1, 1] : List ℚ).sum = ([2] : List ℚ).sum := by
  have s1 : Double.sumFrom (.finite 9007199254740992) [.finite 1]
      = .finite 9007199254740992 := by
    rw [sumFrom_cons, sumFrom_nil]
    exact add_two_pow_53_one
  have s11 : Double.sumFrom (.finite 9007199254740992) [.finite 1, .finite 1]
      = .finite 9007199254740992 := by
    rw [sumFrom_cons, add_two_pow_53_one, sumFrom_cons, sumFrom_nil]
    exact add_two_pow_53_one
  have s2 : Double.sumFrom (.finite 9007199254740992) [.finite 2]
      = .finite 9007199254740994 := by
    rw [sumFrom_cons, sumFrom_nil]
    exact add_two_pow_53_two
  have h1 := (gas_total_after_each ⟨exampleAddress, .finite 9007199254740992⟩ [.finite 1]
    (by norm_num [Double.lt, Double.zero])).trans s1
  have h11 := (gas_total_after_each ⟨exampleAddress, .finite 9007199254740992⟩
    [.finite 1, .finite 1] (by norm_num [Double.lt, Double.zero])).trans s11
  have h2 := (gas_total_after_each ⟨exampleAddress, .finite 9007199254740992⟩ [.finite 2]
    (by norm_num [Double.lt, Double.zero])).trans s2
  refine ⟨isDouble_two_pow_53, isDouble_one, isDouble_two, ?_, h1, ?_, h11, h2,
    by norm_num⟩
  · norm_num [OnDoubles.GasManagement.construct, Double.lt, Double.zero]
  · rw [h1]
    intro h
    injection h with h
    norm_num at h

/-! ### The price setters on doubles -/

/-- C16 as stated fails in its last part. Both electricity rates are at least
0; `SetGridUnitPrice` called with NaN, which is not below zero, throws nothing
and stores NaN, and NaN is not at least 0. `SetGridFeedInTariff` and the gas
setter store NaN the same way. -/
theorem price_setter_stores_nan :
    Double.le Double.zero (.finite 8) ∧ Double.le Double.zero (.finite 3) ∧
      ¬ Double.lt .nan Double.zero ∧
      OnDoubles.ElectricityManagement.SetGridUnitPrice ⟨.finite 8, .finite 3⟩ .nan
        = ⟨⟨.nan, .finite 3⟩, none⟩ ∧
      OnDoubles.ElectricityManagement.SetGridFeedInTariff ⟨.finite 8, .finite 3⟩ .nan
        = ⟨⟨.finite 8, .nan⟩, none⟩ ∧
      OnDoubles.GasManagement.SetGridUnitPrice ⟨.finite 8⟩ .nan = ⟨⟨.nan⟩, none⟩ ∧
      ¬ Double.le Double.zero .nan := by
  refine ⟨?_, ?_, ?_, ?_, ?_, ?_, ?_⟩
  · norm_num [Double.le, Double.zero]
  · norm_num [Double.le, Double.zero]
  · simp [Double.lt, Double.zero]
  · simp [OnDoubles.ElectricityManagement.SetGridUnitPrice, Double.lt, Double.zero]
  · simp [OnDoubles.ElectricityManagement.SetGridFeedInTariff, Double.lt, Double.zero]
  · simp [OnDoubles.GasManagement.SetGridUnitPrice, Double.lt, Double.zero]
  · simp [Double.le, Double.zero]

/-- C16, as amended. Each of `ElectricityManagement::SetGridUnitPrice`,
`SetGridFeedInTariff` and `GasManagement::SetGridUnitPrice` throws
`invalid_argument` exactly when the input compares below zero and throws
nothing otherwise; on failure the rates are as they were, on success the rate
it sets is the input and the other rate is as it was. A rate that is not below
zero is not below zero after any call, and rates that are at least 0 are at
least 0 after every call whose input is not NaN. -/
theorem price_setters_reject_below_zero :
    (∀ (rates : OnDoubles.ElectricityRateTable) (newPrice : Double),
      ((OnDoubles.ElectricityManagement.SetGridUnitPrice rates newPrice).thrown
          = some .invalid_argument ↔ Double.lt newPrice Double.zero) ∧
      ((OnDoubles.ElectricityManagement.SetGridUnitPrice rates newPrice).thrown = none
          ↔ ¬ Double.lt newPrice Double.zero) ∧
      (Double.lt newPrice Double.zero →
        (OnDoubles.ElectricityManagement.SetGridUnitPrice rates newPrice).after = rates) ∧
      (¬ Double.lt newPrice Double.zero →
        (OnDoubles.ElectricityManagement.SetGridUnitPrice rates newPrice).after
          = ⟨newPrice, rates.gridFeedInTariff⟩) ∧
      (¬ Double.lt rates.gridUnitPrice Double.zero →
        ¬ Double.lt rates.gridFeedInTariff Double.zero →
        ¬ Double.lt
            (OnDoubles.ElectricityManagement.SetGridUnitPrice rates newPrice).after.gridUnitPrice
            Double.zero ∧
          ¬ Double.lt
            (OnDoubles.ElectricityManagement.SetGridUnitPrice rates
              newPrice).after.gridFeedInTariff
            Double.zero) ∧
      (newPrice ≠ .nan → Double.le Double.zero rates.gridUnitPrice →
        Double.le Double.zero rates.gridFeedInTariff →
        Double.le Double.zero
            (OnDoubles.ElectricityManagement.SetGridUnitPrice rates newPrice).after.gridUnitPrice ∧
          Double.le Double.zero
            (OnDoubles.ElectricityManagement.SetGridUnitPrice rates
              newPrice).after.gridFeedInTariff)) ∧
    (∀ (rates : OnDoubles.ElectricityRateTable) (newTariff : Double),
      ((OnDoubles.ElectricityManagement.SetGridFeedInTariff rates newTariff).thrown
          = some .invalid_argument ↔ Double.lt newTariff Double.zero) ∧
      ((OnDoubles.ElectricityManagement.SetGridFeedInTariff rates newTariff).thrown = none
          ↔ ¬ Double.lt newTariff Double.zero) ∧
      (Double.lt newTariff Double.zero →
        (OnDoubles.ElectricityManagement.SetGridFeedInTariff rates newTariff).after = rates) ∧
      (¬ Double.lt newTariff Double.zero →
        (OnDoubles.ElectricityManagement.SetGridFeedInTariff rates newTariff).after
          = ⟨rates.gridUnitPrice, newTariff⟩) ∧
      (¬ Double.lt rates.gridUnitPrice Double.zero →
        ¬ Double.lt rates.gridFeedInTariff Double.zero →
        ¬ Double.lt
            (OnDoubles.ElectricityManagement.SetGridFeedInTariff rates
              newTariff).after.gridUnitPrice
            Double.zero ∧
          ¬ Double.lt
            (OnDoubles.ElectricityManagement.SetGridFeedInTariff rates
              newTariff).after.gridFeedInTariff
            Double.zero) ∧
      (newTariff ≠ .nan → Double.le Double.zero rates.gridUnitPrice →
        Double.le Double.zero rates.gridFeedInTariff →
        Double.le Double.zero
            (OnDoubles.ElectricityManagement.SetGridFeedInTariff rates
              newTariff).after.gridUnitPrice ∧
          Double.le Double.zero
            (OnDoubles.ElectricityManagement.SetGridFeedInTariff rates
              newTariff).after.gridFeedInTariff)) ∧
    (∀ (rates : OnDoubles.GasRateTable) (newPrice : Double),
      ((OnDoubles.GasManagement.SetGridUnitPrice rates newPrice).thrown
          = some .invalid_argument ↔ Double.lt newPrice Double.zero) ∧
      ((OnDoubles.GasManagement.SetGridUnitPrice rates newPrice).thrown = none
          ↔ ¬ Double.lt newPrice Double.zero) ∧
      (Double.lt newPrice Double.zero →
        (OnDoubles.GasManagement.SetGridUnitPrice rates newPrice).after = rates) ∧
      (¬ Double.lt newPrice Double.zero →
        (OnDoubles.GasManagement.SetGridUnitPrice rates newPrice).after = ⟨newPrice⟩) ∧
      (¬ Double.lt rates.gridUnitPrice Double.zero →
        ¬ Double.lt
          (OnDoubles.GasManagement.SetGridUnitPrice rates newPrice).after.gridUnitPrice
          Double.zero) ∧
      (newPrice ≠ .nan → Double.le Double.zero rates.gridUnitPrice →
        Double.le Double.zero
          (OnDoubles.GasManagement.SetGridUnitPrice rates newPrice).after.gridUnitPrice)) := by
  refine ⟨?_, ?_, ?_⟩
  · intro rates newPrice
    by_cases hneg : Double.lt newPrice Double.zero
    · have hcall : OnDoubles.ElectricityManagement.SetGridUnitPrice rates newPrice
          = ⟨rates, some .invalid_argument⟩ := if_pos hneg
      rw [hcall]
      exact ⟨⟨fun _ => hneg, fun _ => rfl⟩, ⟨fun h => (by cases h), fun h => absurd hneg h⟩,
        fun _ => rfl, fun h => absurd hneg h, fun h1 h2 => ⟨h1, h2⟩, fun _ h1 h2 => ⟨h1, h2⟩⟩
    · have hcall : OnDoubles.ElectricityManagement.SetGridUnitPrice rates newPrice
          = ⟨⟨newPrice, rates.gridFeedInTariff⟩, none⟩ := if_neg hneg
      rw [hcall]
      exact ⟨⟨fun h => (by cases h), fun h => absurd h hneg⟩, ⟨fun _ => hneg, fun _ => rfl⟩,
        fun h => absurd h hneg, fun _ => rfl, fun _ h2 => ⟨hneg, h2⟩,
        fun hnan _ h2 => ⟨at_least_zero_of_not_negative hneg hnan, h2⟩⟩
  · intro rates newTariff
    by_cases hneg : Double.lt newTariff Double.zero
    · have hcall : OnDoubles.ElectricityManagement.SetGridFeedInTariff rates newTariff
          = ⟨rates, some .invalid_argument⟩ := if_pos hneg
      rw [hcall]
      exact ⟨⟨fun _ => hneg, fun _ => rfl⟩, ⟨fun h => (by cases h), fun h => absurd hneg h⟩,
        fun _ => rfl, fun h => absurd hneg h, fun h1 h2 => ⟨h1, h2⟩, fun _ h1 h2 => ⟨h1, h2⟩⟩
    · have hcall : OnDoubles.ElectricityManagement.SetGridFeedInTariff rates newTariff
          = ⟨⟨rates.gridUnitPrice, newTariff⟩, none⟩ := if_neg hneg
      rw [hcall]
      exact ⟨⟨fun h => (by cases h), fun h => absurd h hneg⟩, ⟨fun _ => hneg, fun _ => rfl⟩,
        fun h => absurd h hneg, fun _ => rfl, fun h1 _ => ⟨h1, hneg⟩,
        fun hnan h1 _ => ⟨h1, at_least_zero_of_not_negative hneg hnan⟩⟩
  · intro rates newPrice
    by_cases hneg : Double.lt newPrice Double.zero
    · have hcall : OnDoubles.GasManagement.SetGridUnitPrice rates newPrice
          = ⟨rates, some .invalid_argument⟩ := if_pos hneg
      rw [hcall]
      exact ⟨⟨fun _ => hneg, fun _ => rfl⟩, ⟨fun h => (by cases h), fun h => absurd hneg h⟩,
        fun _ => rfl, fun h => absurd hneg h, fun h1 => h1, fun _ h1 => h1⟩
    · have hcall : OnDoubles.GasManagement.SetGridUnitPrice rates newPrice
          = ⟨⟨newPrice⟩, none⟩ := if_neg hneg
      rw [hcall]
      exact ⟨⟨fun h => (by cases h), fun h => absurd h hneg⟩, ⟨fun _ => hneg, fun _ => rfl⟩,
        fun h => absurd h hneg, fun _ => rfl, fun _ => hneg,
        fun hnan _ => at_least_zero_of_not_negative hneg hnan⟩

/-- Witness of C16: on the rates 8 and 3, `SetGridUnitPrice(-1)` throws and
leaves them, and `SetGridUnitPrice(4)` stores 4 beside the tariff 3. -/
theorem price_setters_reject_below_zero_witness :
    (OnDoubles.ElectricityManagement.SetGridUnitPrice ⟨.finite 8, .finite 3⟩
        (.finite (-1))).thrown = some .invalid_argument ∧
      (OnDoubles.ElectricityManagement.SetGridUnitPrice ⟨.finite 8, .finite 3⟩
        (.finite (-1))).after = ⟨.finite 8, .finite 3⟩ ∧
      (OnDoubles.ElectricityManagement.SetGridUnitPrice ⟨.finite 8, .finite 3⟩
        (.finite 4)).after = ⟨.finite 4, .finite 3⟩ :=
  have hneg : Double.lt (.finite (-1)) Double.zero := by
    norm_num [Double.lt, Double.zero]
  have hok : ¬ Double.lt (.finite 4) Double.zero := by
    norm_num [Double.lt, Double.zero]
  ⟨(price_setters_reject_below_zero.1 ⟨.finite 8, .finite 3⟩ (.finite (-1))).1.mpr hneg,
    (price_setters_reject_below_zero.1 ⟨.finite 8, .finite 3⟩ (.finite (-1))).2.2.1 hneg,
    (price_setters_reject_below_zero.1 ⟨.finite 8, .finite 3⟩ (.finite 4)).2.2.2.1 hok⟩

/-! ### The sign of the accumulators on doubles -/

theorem zero_not_negative : ¬ Double.lt Double.zero Double.zero :=
  lt_irrefl (0 : ℚ)

theorem zero_at_least_zero : Double.le Double.zero Double.zero :=
  le_refl (0 : ℚ)

theorem electricity_call_not_negative (s : OnDoubles.ElectricityManagement)
    (m : OnDoubles.ElectricityMutation)
    (h : ¬ Double.lt s.totalConsumption Double.zero ∧ ¬ Double.lt s.localGeneration Double.zero) :
    ¬ Double.lt (OnDoubles.ElectricityMutation.call s m).after.totalConsumption Double.zero ∧
      ¬ Double.lt (OnDoubles.ElectricityMutation.call s m).after.localGeneration Double.zero := by
  cases m with
  | addUsage kWh =>
      simp only [OnDoubles.ElectricityMutation.call, OnDoubles.ElectricityManagement.addUsage]
      by_cases hneg : Double.lt kWh Double.zero
      · rw [if_pos hneg]
        exact h
      · rw [if_neg hneg]
        exact ⟨add_not_negative h.1 hneg, h.2⟩
  | addLocalGeneration kWh =>
      simp only [OnDoubles.ElectricityMutation.call,
        OnDoubles.ElectricityManagement.addLocalGeneration]
      by_cases hneg : Double.lt kWh Double.zero
      · rw [if_pos hneg]
        exact h
      · rw [if_neg hneg]
        exact ⟨h.1, add_not_negative h.2 hneg⟩
  | setSupplyStrategy newStrategy => exact h

theorem electricity_call_at_least_zero (s : OnDoubles.ElectricityManagement)
    (m : OnDoubles.ElectricityMutation) (hm : m.NoNaN)
    (h : Double.le Double.zero s.totalConsumption ∧ Double.le Double.zero s.localGeneration) :
    Double.le Double.zero (OnDoubles.ElectricityMutation.call s m).after.totalConsumption ∧
      Double.le Double.zero (OnDoubles.ElectricityMutation.call s m).after.localGeneration := by
  cases m with
  | addUsage kWh =>
      simp only [OnDoubles.ElectricityMutation.call, OnDoubles.ElectricityManagement.addUsage]
      by_cases hneg : Double.lt kWh Double.zero
      · rw [if_pos hneg]
        exact h
      · rw [if_neg hneg]
        exact ⟨add_at_least_zero h.1 (at_least_zero_of_not_negative hneg hm), h.2⟩
  | addLocalGeneration kWh =>
      simp only [OnDoubles.ElectricityMutation.call,
        OnDoubles.ElectricityManagement.addLocalGeneration]
      by_cases hneg : Double.lt kWh Double.zero
      · rw [if_pos hneg]
        exact h
      · rw [if_neg hneg]
        exact ⟨h.1, add_at_least_zero h.2 (at_least_zero_of_not_negative hneg hm)⟩
  | setSupplyStrategy newStrategy => exact h

theorem gas_call_not_negative (s : OnDoubles.GasManagement) (m3 : Double)
    (h : ¬ Double.lt s.totalConsumption Double.zero) :
    ¬ Double.lt (s.addUsage m3).after.totalConsumption Double.zero := by
  simp only [OnDoubles.GasManagement.addUsage]
  by_cases hneg : Double.lt m3 Double.zero
  · rw [if_pos hneg]
    exact h
  · rw [if_neg hneg]
    exact add_not_negative h hneg

theorem gas_call_at_least_zero (s : OnDoubles.GasManagement) (m3 : Double) (hm : m3 ≠ .nan)
    (h : Double.le Double.zero s.totalConsumption) :
    Double.le Double.zero (s.addUsage m3).after.totalConsumption := by
  simp only [OnDoubles.GasManagement.addUsage]
  by_cases hneg : Double.lt m3 Double.zero
  · rw [if_pos hneg]
    exact h
  · rw [if_neg hneg]
    exact add_at_least_zero h (at_least_zero_of_not_negative hneg hm)

theorem water_setCurrentPlan_consumption (store : PlanDetailsStore)
    (s : OnDoubles.WaterManagement) (newPlan : WaterTariffPlan) :
    (s.setCurrentPlan store newPlan).after.consumptionCubicMeters = s.consumptionCubicMeters ∨
      (s.setCurrentPlan store newPlan).after.consumptionCubicMeters = Double.zero := by
  unfold OnDoubles.WaterManagement.setCurrentPlan
  cases hs : store newPlan with
  | none => exact Or.inl rfl
  | some info =>
      right
      simp only []
      split <;> rfl

theorem internet_setCurrentPlan_usage (s : OnDoubles.InternetManagement)
    (newPlan : InternetPlan) :
    (s.setCurrentPlan newPlan).after.dataUsedGB = Double.zero := by
  unfold OnDoubles.InternetManagement.setCurrentPlan
  simp only []
  split <;> rfl

theorem water_call_not_negative (store : PlanDetailsStore) (s : OnDoubles.WaterManagement)
    (m : OnDoubles.WaterMutation) (h : ¬ Double.lt s.consumptionCubicMeters Double.zero) :
    ¬ Double.lt (OnDoubles.WaterMutation.call store s m).after.consumptionCubicMeters
      Double.zero := by
  cases m with
  | addConsumption cubicMeters =>
      simp only [OnDoubles.WaterMutation.call, OnDoubles.WaterManagement.addConsumption]
      by_cases hneg : Double.lt cubicMeters Double.zero
      · rw [if_pos hneg]
        exact h
      · rw [if_neg hneg]
        exact add_not_negative h hneg
  | setCurrentPlan newPlan =>
      simp only [OnDoubles.WaterMutation.call]
      rcases water_setCurrentPlan_consumption store s newPlan with h1 | h1
      · rw [h1]
        exact h
      · rw [h1]
        exact zero_not_negative

theorem water_call_at_least_zero (store : PlanDetailsStore) (s : OnDoubles.WaterManagement)
    (m : OnDoubles.WaterMutation) (hm : m.NoNaN)
    (h : Double.le Double.zero s.consumptionCubicMeters) :
    Double.le Double.zero
      (OnDoubles.WaterMutation.call store s m).after.consumptionCubicMeters := by
  cases m with
  | addConsumption cubicMeters =>
      simp only [OnDoubles.WaterMutation.call, OnDoubles.WaterManagement.addConsumption]
      by_cases hneg : Double.lt cubicMeters Double.zero
      · rw [if_pos hneg]
        exact h
      · rw [if_neg hneg]
        exact add_at_least_zero h (at_least_zero_of_not_negative hneg hm)
  | setCurrentPlan newPlan =>
      simp only [OnDoubles.WaterMutation.call]
      rcases water_setCurrentPlan_consumption store s newPlan with h1 | h1
      · rw [h1]
        exact h
      · rw [h1]
        exact zero_at_least_zero

theorem internet_call_not_negative (s : OnDoubles.InternetManagement)
    (m : OnDoubles.InternetMutation) (h : ¬ Double.lt s.dataUsedGB Double.zero) :
    ¬ Double.lt (OnDoubles.InternetMutation.call s m).after.dataUsedGB Double.zero := by
  cases m with
  | addDataUsage data =>
      simp only [OnDoubles.InternetMutation.call, OnDoubles.InternetManagement.addDataUsage]
      by_cases hneg : Double.lt data Double.zero
      · rw [if_pos hneg]
        exact h
      · rw [if_neg hneg]
        exact add_not_negative h hneg
  | setCurrentPlan newPlan =>
      simp only [OnDoubles.InternetMutation.call]
      rw [internet_setCurrentPlan_usage]
      exact zero_not_negative

theorem internet_call_at_least_zero (s : OnDoubles.InternetManagement)
    (m : OnDoubles.InternetMutation) (hm : m.NoNaN)
    (h : Double.le Double.zero s.dataUsedGB) :
    Double.le Double.zero (OnDoubles.InternetMutation.call s m).after.dataUsedGB := by
  cases m with
  | addDataUsage data =>
      simp only [OnDoubles.InternetMutation.call, OnDoubles.InternetManagement.addDataUsage]
      by_cases hneg : Double.lt data Double.zero
      · rw [if_pos hneg]
        exact h
      · rw [if_neg hneg]
        exact add_at_least_zero h (at_least_zero_of_not_negative hneg hm)
  | setCurrentPlan newPlan =>
      simp only [OnDoubles.InternetMutation.call]
      rw [internet_setCurrentPlan_usage]
      exact zero_at_least_zero

/-- C20 as stated fails. An electricity account is constructed at consumption
12 and generation 5; `addUsage` called with NaN, which is not below zero,
throws nothing and leaves the consumption NaN, which is not at least 0. A
constructor called with NaN returns an account whose consumption is NaN. -/
theorem accumulator_becomes_nan :
    OnDoubles.ElectricityManagement.construct exampleAddress .GRID_ONLY (.finite 12) (.finite 5)
        = .ok ⟨exampleAddress, .finite 12, .finite 5, .GRID_ONLY⟩ ∧
      (OnDoubles.ElectricityManagement.addUsage
        ⟨exampleAddress, .finite 12, .finite 5, .GRID_ONLY⟩ .nan).thrown = none ∧
      (afterCalls OnDoubles.ElectricityMutation.call
        ⟨exampleAddress, .finite 12, .finite 5, .GRID_ONLY⟩
        [.addUsage .nan]).getTotalConsumption = .nan ∧
      OnDoubles.GasManagement.construct exampleAddress .nan = .ok ⟨exampleAddress, .nan⟩ ∧
      ¬ Double.le Double.zero .nan := by
  refine ⟨?_, ?_, ?_, ?_, ?_⟩
  · norm_num [OnDoubles.ElectricityManagement.construct, Double.lt, Double.zero]
  · simp [OnDoubles.ElectricityManagement.addUsage, Double.lt, Double.zero]
  · simp [afterCalls, OnDoubles.ElectricityMutation.call,
      OnDoubles.ElectricityManagement.addUsage,
      OnDoubles.ElectricityManagement.getTotalConsumption, Double.lt, Double.zero, Double.add]
  · simp [OnDoubles.GasManagement.construct, Double.lt, Double.zero]
  · simp [Double.le, Double.zero]

/-- C20, as amended. In every account reached from a successful construction
by any sequence of mutator calls (`addUsage`, `addLocalGeneration`,
`addConsumption`, `addDataUsage`, `setSupplyStrategy`, `setCurrentPlan`), each
made on the account the previous call left whether that call threw or not, the
period consumption is not below zero and, for electricity, neither is the
local generation. When neither the constructor nor any of the calls was passed
NaN, the period consumption is at least 0 and, for electricity, so is the
local generation. -/
theorem accumulators_never_below_zero :
    (∀ (ad : Address) (strategy : ElectricitySupplyStrategy) (c0 g0 : Double)
        (acct : OnDoubles.ElectricityManagement) (calls : List OnDoubles.ElectricityMutation),
      OnDoubles.ElectricityManagement.construct ad strategy c0 g0 = .ok acct →
      (¬ Double.lt
          (afterCalls OnDoubles.ElectricityMutation.call acct calls).getTotalConsumption
          Double.zero ∧
        ¬ Double.lt
          (afterCalls OnDoubles.ElectricityMutation.call acct calls).getLocalGeneration
          Double.zero) ∧
      (c0 ≠ .nan → g0 ≠ .nan → (∀ m ∈ calls, m.NoNaN) →
        Double.le Double.zero
          (afterCalls OnDoubles.ElectricityMutation.call acct calls).getTotalConsumption ∧
        Double.le Double.zero
          (afterCalls OnDoubles.ElectricityMutation.call acct calls).getLocalGeneration)) ∧
    (∀ (ad : Address) (c0 : Double) (acct : OnDoubles.GasManagement) (amounts : List Double),
      OnDoubles.GasManagement.construct ad c0 = .ok acct →
      ¬ Double.lt (afterCalls OnDoubles.GasManagement.addUsage acct amounts).getTotalConsumption
        Double.zero ∧
      (c0 ≠ .nan → (∀ a ∈ amounts, a ≠ .nan) →
        Double.le Double.zero
          (afterCalls OnDoubles.GasManagement.addUsage acct amounts).getTotalConsumption)) ∧
    (∀ (store : PlanDetailsStore) (ad : Address) (plan : WaterTariffPlan) (c0 : Double)
        (acct : OnDoubles.WaterManagement) (calls : List OnDoubles.WaterMutation),
      OnDoubles.WaterManagement.construct store ad plan c0 = .ok acct →
      ¬ Double.lt
        (afterCalls (OnDoubles.WaterMutation.call store) acct calls).getConsumptionCubicMeters
        Double.zero ∧
      (c0 ≠ .nan → (∀ m ∈ calls, m.NoNaN) →
        Double.le Double.zero
          (afterCalls (OnDoubles.WaterMutation.call store) acct
            calls).getConsumptionCubicMeters)) ∧
    (∀ (ad : Address) (plan : InternetPlan) (u0 : Double) (acct : OnDoubles.InternetManagement)
        (calls : List OnDoubles.InternetMutation),
      OnDoubles.InternetManagement.construct ad plan u0 = .ok acct →
      ¬ Double.lt (afterCalls OnDoubles.InternetMutation.call acct calls).getDataUsedGB
        Double.zero ∧
      (u0 ≠ .nan → (∀ m ∈ calls, m.NoNaN) →
        Double.le Double.zero
          (afterCalls OnDoubles.InternetMutation.call acct calls).getDataUsedGB)) := by
  refine ⟨?_, ?_, ?_, ?_⟩
  · intro ad strategy c0 g0 acct calls hc
    obtain ⟨rfl, h0, hg⟩ := electricity_construct_double hc
    refine ⟨?_, fun hc0 hg0 hcalls => ?_⟩
    · exact afterCalls_invariant OnDoubles.ElectricityMutation.call
        (fun s => ¬ Double.lt s.totalConsumption Double.zero ∧
          ¬ Double.lt s.localGeneration Double.zero)
        electricity_call_not_negative calls _ ⟨h0, hg⟩
    · exact afterCalls_invariant_of OnDoubles.ElectricityMutation.call
        (fun s => Double.le Double.zero s.totalConsumption ∧
          Double.le Double.zero s.localGeneration)
        OnDoubles.ElectricityMutation.NoNaN electricity_call_at_least_zero calls _ hcalls
        ⟨at_least_zero_of_not_negative h0 hc0, at_least_zero_of_not_negative hg hg0⟩
  · intro ad c0 acct amounts hc
    obtain ⟨rfl, h0⟩ := gas_construct_double hc
    refine ⟨?_, fun hc0 hcalls => ?_⟩
    · exact afterCalls_invariant OnDoubles.GasManagement.addUsage
        (fun s => ¬ Double.lt s.totalConsumption Double.zero) gas_call_not_negative amounts _ h0
    · exact afterCalls_invariant_of OnDoubles.GasManagement.addUsage
        (fun s => Double.le Double.zero s.totalConsumption) (fun a => a ≠ .nan)
        gas_call_at_least_zero amounts _ hcalls (at_least_zero_of_not_negative h0 hc0)
  · intro store ad plan c0 acct calls hc
    obtain ⟨rfl, h0⟩ := water_construct_double hc
    refine ⟨?_, fun hc0 hcalls => ?_⟩
    · exact afterCalls_invariant (OnDoubles.WaterMutation.call store)
        (fun s => ¬ Double.lt s.consumptionCubicMeters Double.zero)
        (water_call_not_negative store) calls _ h0
    · exact afterCalls_invariant_of (OnDoubles.WaterMutation.call store)
        (fun s => Double.le Double.zero s.consumptionCubicMeters)
        OnDoubles.WaterMutation.NoNaN (water_call_at_least_zero store) calls _ hcalls
        (at_least_zero_of_not_negative h0 hc0)
  · intro ad plan u0 acct calls hc
    obtain ⟨rfl, h0⟩ := internet_construct_double hc
    refine ⟨?_, fun hc0 hcalls => ?_⟩
    · exact afterCalls_invariant OnDoubles.InternetMutation.call
        (fun s => ¬ Double.lt s.dataUsedGB Double.zero) internet_call_not_negative calls _ h0
    · exact afterCalls_invariant_of OnDoubles.InternetMutation.call
        (fun s => Double.le Double.zero s.dataUsedGB) OnDoubles.InternetMutation.NoNaN
        internet_call_at_least_zero calls _ hcalls (at_least_zero_of_not_negative h0 hc0)

/-- Witness of C20: an internet account constructed at 130 GB, then a rejected
`addDataUsage(-500)`, a `setCurrentPlan` with a tag outside the enumeration,
which throws after its assignments, and `addDataUsage(7)`; no NaN is passed. -/
theorem accumulators_never_below_zero_witness :
    Double.le Double.zero
      (afterCalls OnDoubles.InternetMutation.call ⟨exampleAddress, .finite 130, .STANDARD⟩
        [.addDataUsage (.finite (-500)), .setCurrentPlan .UNRECOGNIZED,
          .addDataUsage (.finite 7)]).getDataUsedGB :=
  (accumulators_never_below_zero.2.2.2 exampleAddress .STANDARD (.finite 130)
    ⟨exampleAddress, .finite 130, .STANDARD⟩
    [.addDataUsage (.finite (-500)), .setCurrentPlan .UNRECOGNIZED, .addDataUsage (.finite 7)]
    (by norm_num [OnDoubles.InternetManagement.construct, Double.lt, Double.zero])).2
    (by simp)
    (by simp [OnDoubles.InternetMutation.NoNaN])

end Utility
